import Mathlib

/-!
Verification of the AI-theme generation pipeline of the pomodoro repository.

The definitions below are a shallow embedding of the TypeScript sources:
  * services/color-diversity-validator.ts  (ColorDiversityValidator)
  * services/ai-theme-service.ts           (OpenAIThemeAdapter, ThemeProcessor)
  * services/ai-theme-generator.ts         (AIThemeGenerator.generateTheme)
  * services/generated-theme-storage.ts    (ContextualColorValidator)
JavaScript numbers are modelled as real numbers (where Math.sqrt appears)
or rational numbers (everywhere else); JavaScript Map objects are modelled
as insertion-ordered association lists.
-/

/-- Whether `pat` occurs at the front of `s` (character lists). -/
def charsStartWith : List Char → List Char → Bool
  | _, [] => true
  | [], _ :: _ => false
  | c :: cs, d :: ds => c = d && charsStartWith cs ds

/-- Whether `pat` occurs anywhere inside `s` (character lists). -/
def charsContain (pat : List Char) : List Char → Bool
  | [] => charsStartWith [] pat
  | c :: cs => charsStartWith (c :: cs) pat || charsContain pat cs

/-- JavaScript `s.includes(pat)`: substring containment test. -/
def jsIncludes (s pat : String) : Bool :=
  charsContain pat.data s.data

/-- JavaScript `s.toLowerCase()` (character-wise, as the sources use it on
ASCII prompts and keywords). -/
def jsToLower (s : String) : String :=
  ⟨s.data.map Char.toLower⟩

/-- JavaScript `s.trim()`: strip whitespace from both ends. -/
def jsTrim (s : String) : String :=
  ⟨((s.data.dropWhile Char.isWhitespace).reverse.dropWhile Char.isWhitespace).reverse⟩

/-- Value of one hex digit, case-insensitive, as in the character class
`[a-f\d]` with the `i` flag (and `[A-Fa-f0-9]`). -/
def hexDigitVal (c : Char) : Option Nat :=
  if '0' ≤ c ∧ c ≤ '9' then some (c.toNat - '0'.toNat)
  else if 'a' ≤ c ∧ c ≤ 'f' then some (c.toNat - 'a'.toNat + 10)
  else if 'A' ≤ c ∧ c ≤ 'F' then some (c.toNat - 'A'.toNat + 10)
  else none

/-- An RGB triple as produced by `hexToRgb` (each component 0–255). -/
structure RGB where
  r : Nat
  g : Nat
  b : Nat
deriving DecidableEq, Repr

/-- ColorDiversityValidator.hexToRgb (color-diversity-validator.ts:323-330):
regex `^#?([a-f\d]{2})([a-f\d]{2})([a-f\d]{2})$` with flag `i`; a non-match
yields null.  The contextual validator has a character-identical copy
(generated-theme-storage.ts:804-811). -/
def hexToRgb (hex : String) : Option RGB :=
  let cs := hex.data
  let cs := if cs.head? = some '#' then cs.tail else cs
  match cs with
  | [c1, c2, c3, c4, c5, c6] =>
    match hexDigitVal c1, hexDigitVal c2, hexDigitVal c3,
          hexDigitVal c4, hexDigitVal c5, hexDigitVal c6 with
    | some a, some b, some c, some d, some e, some f =>
      some ⟨16 * a + b, 16 * c + d, 16 * e + f⟩
    | _, _, _, _, _, _ => none
  | _ => none

/-- ThemeProcessor.isValidHexColor (ai-theme-service.ts bundle, theme-processor
part): regex `^#([A-Fa-f0-9]{6}|[A-Fa-f0-9]{3})$` — note that a 3-digit
shorthand hex string is accepted.  OpenAIThemeAdapter.isValidHexColor is
character-identical. -/
def isValidHexColor (color : String) : Bool :=
  match color.data with
  | '#' :: rest =>
    (rest.length = 6 ∨ rest.length = 3) ∧ rest.all fun c => (hexDigitVal c).isSome
  | _ => false

/-- The strict 6-digit hex pattern named by the specification for accepted
themes: a `#` followed by exactly six hex digits. -/
def isValid6DigitHex (color : String) : Bool :=
  match color.data with
  | '#' :: rest => rest.length = 6 ∧ rest.all fun c => (hexDigitVal c).isSome
  | _ => false

/-- ColorDiversityValidator.calculateRGBDistance
(color-diversity-validator.ts:78-92): Euclidean distance in RGB space;
returns 0 when either color fails to parse. -/
noncomputable def calculateRGBDistance (color1 color2 : String) : ℝ :=
  match hexToRgb color1, hexToRgb color2 with
  | some rgb1, some rgb2 =>
    Real.sqrt (((rgb1.r : ℝ) - rgb2.r) ^ 2 + ((rgb1.g : ℝ) - rgb2.g) ^ 2 +
      ((rgb1.b : ℝ) - rgb2.b) ^ 2)
  | _, _ => 0

/-- ThemeColors (types/timer, re-exported in components/background-elements.tsx). -/
structure ThemeColors where
  primary : String
  secondary : String
  accent : String
  gradient : List String
  background : Option String := none
deriving DecidableEq, Repr

/-- ColorDiversityValidator.calculateThemeColorDistance
(color-diversity-validator.ts:97-104): weighted average of the per-field
RGB distances. -/
noncomputable def calculateThemeColorDistance (colors1 colors2 : ThemeColors) : ℝ :=
  calculateRGBDistance colors1.primary colors2.primary * 0.5 +
  calculateRGBDistance colors1.secondary colors2.secondary * 0.3 +
  calculateRGBDistance colors1.accent colors2.accent * 0.2

/-- ThemeColorSummary (color-diversity-validator.ts:16-24). -/
structure ThemeColorSummary where
  studyPrimary : String
  studySecondary : String
  studyAccent : String
  breakPrimary : String
  breakSecondary : String
  breakAccent : String
  animationType : Option String := none
deriving DecidableEq, Repr

/-- DEFAULT_FALLBACK_COLORS (color-diversity-validator.ts:47-54). -/
def DEFAULT_FALLBACK_COLORS : ThemeColorSummary :=
  { studyPrimary := "#6B73FF"
    studySecondary := "#F0F2FF"
    studyAccent := "#4C51BF"
    breakPrimary := "#48BB78"
    breakSecondary := "#F0FFF4"
    breakAccent := "#38A169" }

/-- DiversityConfig (color-diversity-validator.ts:40-44). -/
structure DiversityConfig where
  minColorDistance : ℝ
  maxSimilarityScore : ℝ
  fallbackThemeColors : ThemeColorSummary

/-- DEFAULT_DIVERSITY_CONFIG (color-diversity-validator.ts:57-61); this is the
configuration of the exported `colorDiversityValidator` singleton used by the
whole pipeline. -/
noncomputable def DEFAULT_DIVERSITY_CONFIG : DiversityConfig :=
  { minColorDistance := 50
    maxSimilarityScore := 0.7
    fallbackThemeColors := DEFAULT_FALLBACK_COLORS }

/-- Study-phase ThemeColors of the configured fallback palette, as rebuilt in
validateAgainstFallback / validateSessionUniqueness (gradient empty). -/
def fallbackStudyColors (cfg : DiversityConfig) : ThemeColors :=
  { primary := cfg.fallbackThemeColors.studyPrimary
    secondary := cfg.fallbackThemeColors.studySecondary
    accent := cfg.fallbackThemeColors.studyAccent
    gradient := [] }

/-- Break-phase ThemeColors of the configured fallback palette. -/
def fallbackBreakColors (cfg : DiversityConfig) : ThemeColors :=
  { primary := cfg.fallbackThemeColors.breakPrimary
    secondary := cfg.fallbackThemeColors.breakSecondary
    accent := cfg.fallbackThemeColors.breakAccent
    gradient := [] }

/-- AnimationSuggestion (ai-theme-service.ts:38-42); the free-form
`properties` record is not inspected anywhere in the pipeline and is omitted. -/
structure AnimationSuggestion where
  type : String
  duration : ℚ
deriving DecidableEq, Repr

/-- The `backgroundType` union of AIThemeResponse.visualElements. -/
inductive BackgroundType where
  | pattern
  | particles
  | gradient
deriving DecidableEq, Repr

/-- AIThemeResponse.visualElements (ai-theme-service.ts:29-33). -/
structure VisualElements where
  backgroundType : BackgroundType
  elements : List String
  animations : Option (List AnimationSuggestion) := none
deriving DecidableEq, Repr

/-- One phase color block of AIThemeResponse (ai-theme-service.ts:17-28). -/
structure AIColorSpec where
  primary : String
  secondary : String
  accent : String
  description : String := ""
deriving DecidableEq, Repr

/-- AIThemeResponse (ai-theme-service.ts:16-36). -/
structure AIThemeResponse where
  studyColors : AIColorSpec
  breakColors : AIColorSpec
  visualElements : VisualElements
  themeName : String
  confidence : ℚ
deriving DecidableEq, Repr

/-- The study-phase ThemeColors built from an AIThemeResponse inside the
diversity validator (gradient empty). -/
def responseStudyColors (r : AIThemeResponse) : ThemeColors :=
  { primary := r.studyColors.primary
    secondary := r.studyColors.secondary
    accent := r.studyColors.accent
    gradient := [] }

/-- The break-phase ThemeColors built from an AIThemeResponse inside the
diversity validator (gradient empty). -/
def responseBreakColors (r : AIThemeResponse) : ThemeColors :=
  { primary := r.breakColors.primary
    secondary := r.breakColors.secondary
    accent := r.breakColors.accent
    gradient := [] }

/-- ColorDistance (color-diversity-validator.ts:10-13); the boolean flag is
modelled as a proposition because the comparison is on real numbers. -/
structure ColorDistance where
  distance : ℝ
  isSimilar : Prop

/-- ColorDiversityValidator.validateAgainstFallback
(color-diversity-validator.ts:109-146). -/
noncomputable def validateAgainstFallback (cfg : DiversityConfig)
    (aiResponse : AIThemeResponse) : ColorDistance :=
  let studyDistance :=
    calculateThemeColorDistance (responseStudyColors aiResponse) (fallbackStudyColors cfg)
  let breakDistance :=
    calculateThemeColorDistance (responseBreakColors aiResponse) (fallbackBreakColors cfg)
  let averageDistance := (studyDistance + breakDistance) / 2
  { distance := averageDistance
    isSimilar := averageDistance < cfg.minColorDistance }

/-- ColorDiversityValidator.calculateThemeSimilarity
(color-diversity-validator.ts:287-302): six-value average RGB distance,
converted to a similarity score with maximum distance 441.67. -/
noncomputable def calculateThemeSimilarity (theme1 theme2 : ThemeColorSummary) : ℝ :=
  let avgDistance :=
    (calculateRGBDistance theme1.studyPrimary theme2.studyPrimary +
     calculateRGBDistance theme1.studySecondary theme2.studySecondary +
     calculateRGBDistance theme1.studyAccent theme2.studyAccent +
     calculateRGBDistance theme1.breakPrimary theme2.breakPrimary +
     calculateRGBDistance theme1.breakSecondary theme2.breakSecondary +
     calculateRGBDistance theme1.breakAccent theme2.breakAccent) / 6
  1 - avgDistance / 441.67

/-- ColorDiversityValidator.createThemeColorSummary
(color-diversity-validator.ts:257-267). -/
def createThemeColorSummary (aiResponse : AIThemeResponse) : ThemeColorSummary :=
  { studyPrimary := aiResponse.studyColors.primary
    studySecondary := aiResponse.studyColors.secondary
    studyAccent := aiResponse.studyColors.accent
    breakPrimary := aiResponse.breakColors.primary
    breakSecondary := aiResponse.breakColors.secondary
    breakAccent := aiResponse.breakColors.accent
    animationType := (aiResponse.visualElements.animations.bind List.head?).map
      AnimationSuggestion.type }

/-- The validator's `sessionThemes` JavaScript Map, as an insertion-ordered
association list from theme id to summary. -/
abbrev SessionState := List (String × ThemeColorSummary)

/-- JavaScript `Map.set`: replace in place when the key exists (preserving
insertion order), otherwise append at the end. -/
def mapSet (m : SessionState) (k : String) (v : ThemeColorSummary) : SessionState :=
  if m.any fun p => p.1 = k then
    m.map fun p => if p.1 = k then (k, v) else p
  else
    m ++ [(k, v)]

/-- DiversityValidationResult (color-diversity-validator.ts:27-37). -/
structure DiversityValidationResult where
  isUnique : Prop
  similarityScore : ℝ
  conflictingThemes : List String
  recommendations : List String
  studyColorsDistance : ℝ
  breakColorsDistance : ℝ
  overallDistance : ℝ

open Classical in
/-- ColorDiversityValidator.validateSessionUniqueness
(color-diversity-validator.ts:151-222).  The loop over the session map
accumulates the conflicting ids (similarity strictly above the configured
maximum) and the maximum similarity; the loop's `minDistance` accumulator is
computed by the source but does not flow into the returned record and is
omitted. -/
noncomputable def validateSessionUniqueness (cfg : DiversityConfig)
    (sessionThemes : SessionState) (aiResponse : AIThemeResponse) :
    DiversityValidationResult :=
  let newThemeSummary := createThemeColorSummary aiResponse
  let acc := sessionThemes.foldl
    (fun (acc : List String × ℝ) p =>
      let similarity := calculateThemeSimilarity newThemeSummary p.2
      (if similarity > cfg.maxSimilarityScore then acc.1 ++ [p.1] else acc.1,
       max acc.2 similarity))
    ([], 0)
  let studyDistance :=
    calculateThemeColorDistance (responseStudyColors aiResponse) (fallbackStudyColors cfg)
  let breakDistance :=
    calculateThemeColorDistance (responseBreakColors aiResponse) (fallbackBreakColors cfg)
  let overallDistance := (studyDistance + breakDistance) / 2
  let recommendations :=
    (if acc.1.length > 0 then
      ["Try a different color palette to avoid similarity with recent themes"] else []) ++
    (if overallDistance < cfg.minColorDistance then
      ["Generated colors are too similar to default fallback theme"] else [])
  { isUnique := acc.1 = [] ∧ overallDistance ≥ cfg.minColorDistance
    similarityScore := acc.2
    conflictingThemes := acc.1
    recommendations := recommendations
    studyColorsDistance := studyDistance
    breakColorsDistance := breakDistance
    overallDistance := overallDistance }

/-- Particle settings of ThemeAnimations (components/background-elements.tsx:974-978). -/
structure ParticleSettings where
  count : ℚ
  speed : ℚ
  opacity : ℚ
deriving DecidableEq, Repr

/-- ThemeAnimations (components/background-elements.tsx:971-979). -/
structure ThemeAnimations where
  duration : Option ℚ := none
  easing : Option String := none
  particles : Option ParticleSettings := none
deriving DecidableEq, Repr

/-- The config record of a BackgroundElement, shaped as the three variants
ThemeProcessor.processBackgroundElements constructs. -/
inductive BackgroundConfig where
  | particlesCfg (pattern : String) (count : ℚ) (animationDuration : ℚ) (opacity : ℚ)
  | patternCfg (studyCharacter breakCharacter position : String) (scale : ℚ)
  | gradientCfg (colors : List String) (direction : String)
deriving DecidableEq, Repr

/-- BackgroundElement (components/background-elements.tsx:959-962). -/
structure BackgroundElement where
  type : String
  config : BackgroundConfig
deriving DecidableEq, Repr

/-- GeneratedTheme (theme-processor part of the ai-theme-service.ts bundle,
lines 308-315): a ThemeConfig plus generation metadata. -/
structure GeneratedTheme where
  id : String
  name : String
  studyColors : ThemeColors
  breakColors : ThemeColors
  backgroundElements : List BackgroundElement
  animations : Option ThemeAnimations
  originalPrompt : String
  createdAt : ℕ
  isCustom : Bool := true
  aiConfidence : Option ℚ := none
  diversityValidation : Option DiversityValidationResult := none

/-- ColorDiversityValidator.createThemeColorSummaryFromGenerated
(color-diversity-validator.ts:272-282): the summary stores the animation type
`particles` exactly when the theme declares a particles animation block. -/
def createThemeColorSummaryFromGenerated (theme : GeneratedTheme) : ThemeColorSummary :=
  { studyPrimary := theme.studyColors.primary
    studySecondary := theme.studyColors.secondary
    studyAccent := theme.studyColors.accent
    breakPrimary := theme.breakColors.primary
    breakSecondary := theme.breakColors.secondary
    breakAccent := theme.breakColors.accent
    animationType :=
      match theme.animations with
      | some a => match a.particles with
        | some _ => some "particles"
        | none => none
      | none => none }

/-- The size-limit step of ColorDiversityValidator.addThemeToSession
(color-diversity-validator.ts:231-237): when the map size exceeds 10, delete
the first (oldest) key — guarded by the JavaScript truthiness test
`if (firstKey)`, which skips the deletion when the oldest key is the empty
string. -/
def sessionEvict (m : SessionState) : SessionState :=
  if m.length > 10 then
    match m.head? with
    | some (firstKey, _) =>
      if firstKey = "" then m else m.eraseP fun p => p.1 = firstKey
    | none => m
  else m

/-- ColorDiversityValidator.addThemeToSession
(color-diversity-validator.ts:227-238), continued: `Map.set` then the
size-limit step above. -/
def addThemeToSession (theme : GeneratedTheme) (sessionThemes : SessionState) :
    SessionState :=
  sessionEvict (mapSet sessionThemes theme.id (createThemeColorSummaryFromGenerated theme))

/-- One field check of ThemeProcessor.validateColorObject: `!colors[field]`
(falsy, i.e. the empty string) raises the missing-color error, a failed
isValidHexColor test raises the invalid-format error. -/
def checkColorField (value fieldName context : String) : Except String Unit :=
  if value = "" then
    .error ("Missing " ++ fieldName ++ " color in " ++ context)
  else if ¬ isValidHexColor value then
    .error ("Invalid hex color format for " ++ fieldName ++ " in " ++ context ++ ": " ++ value)
  else
    .ok ()

/-- ThemeProcessor.validateColorObject (theme-processor part, lines 415-425):
the three color fields are checked in order, the first failure propagating. -/
def validateColorObject (colors : AIColorSpec) (context : String) : Except String Unit :=
  match checkColorField colors.primary "primary" context with
  | .error e => .error e
  | .ok _ =>
    match checkColorField colors.secondary "secondary" context with
    | .error e => .error e
    | .ok _ => checkColorField colors.accent "accent" context

/-- ThemeProcessor.validateAIResponse (theme-processor part, lines 398-410).
The presence tests on `studyColors`, `breakColors` and `visualElements` are
vacuous for a well-typed response record; the color object checks remain. -/
def validateAIResponse (response : AIThemeResponse) : Except String Unit :=
  match validateColorObject response.studyColors "studyColors" with
  | .error e => .error e
  | .ok _ => validateColorObject response.breakColors "breakColors"

/-- ThemeProcessor.convertToThemeColors (theme-processor part, lines 430-441). -/
def convertToThemeColors (aiColors : AIColorSpec) : ThemeColors :=
  { primary := aiColors.primary
    secondary := aiColors.secondary
    accent := aiColors.accent
    gradient := [aiColors.secondary, aiColors.primary]
    background := some aiColors.secondary }

/-- ThemeProcessor.processBackgroundElements (theme-processor part, lines
446-480).  JavaScript `x || d` is modelled as replacing the empty string (the
only falsy value a present string field can take). -/
def processBackgroundElements (visualElements : VisualElements) : List BackgroundElement :=
  if visualElements.backgroundType = .particles ∧ visualElements.elements.length > 0 then
    [{ type := "particles"
       config := .particlesCfg
         (if visualElements.elements.headD "" = "" then "default"
          else visualElements.elements.headD "")
         (min 15 (max 5 ((visualElements.elements.length : ℚ) * 3)))
         6000 (4 / 10) }]
  else if visualElements.backgroundType = .pattern ∧ visualElements.elements.length > 0 then
    [{ type := "pattern"
       config := .patternCfg
         (if visualElements.elements.headD "" = "" then "default-study"
          else visualElements.elements.headD "")
         (if visualElements.elements.getD 1 "" = "" then "default-break"
          else visualElements.elements.getD 1 "")
         "left-side" (8 / 10) }]
  else if visualElements.backgroundType = .gradient then
    [{ type := "gradient"
       config := .gradientCfg visualElements.elements "vertical" }]
  else []

/-- ThemeProcessor.processAnimations (theme-processor part, lines 485-508).
The source's `ThemeAnimations | undefined` return is always a record;
`firstAnimation.duration || 6000` replaces a zero (falsy) duration. -/
def processAnimations (animationSuggestions : Option (List AnimationSuggestion)) :
    ThemeAnimations :=
  match animationSuggestions with
  | none =>
    { duration := some 6000, easing := some "ease-in-out"
      particles := some ⟨8, 1, 4 / 10⟩ }
  | some [] =>
    { duration := some 6000, easing := some "ease-in-out"
      particles := some ⟨8, 1, 4 / 10⟩ }
  | some (firstAnimation :: _) =>
    { duration := some (min 10000 (max 3000
        (if firstAnimation.duration = 0 then 6000 else firstAnimation.duration)))
      easing := some "ease-in-out"
      particles := some ⟨8, 1, 4 / 10⟩ }

/-- Wrap an integer to the signed 32-bit range, as JavaScript bitwise
operators do. -/
def toInt32 (n : ℤ) : ℤ :=
  (n + 2 ^ 31) % 2 ^ 32 - 2 ^ 31

/-- One step of ThemeProcessor.simpleHash:
`hash = ((hash << 5) - hash) + char; hash = hash & hash`. -/
def simpleHashStep (hash : ℤ) (char : Char) : ℤ :=
  toInt32 (toInt32 (hash * 32) - hash + char.toNat)

/-- The integer accumulator of ThemeProcessor.simpleHash (theme-processor
part, lines 532-540) over the characters of the string. -/
def simpleHashInt (str : String) : ℤ :=
  str.data.foldl simpleHashStep 0

/-- Digit character for base-36 printing (0-9 then a-z), as
`Number.prototype.toString(36)` uses. -/
def base36Digit (d : Nat) : Char :=
  if d < 10 then Char.ofNat ('0'.toNat + d) else Char.ofNat ('a'.toNat + d - 10)

/-- Fuelled base-36 digit accumulation (fuel `n` is enough for the value `n`). -/
def natToBase36Aux : Nat → Nat → List Char → List Char
  | 0, _, acc => acc
  | _ + 1, 0, acc => acc
  | fuel + 1, n, acc => natToBase36Aux fuel (n / 36) (base36Digit (n % 36) :: acc)

/-- JavaScript `n.toString(36)` for a non-negative integer. -/
def natToBase36 (n : Nat) : String :=
  if n = 0 then "0" else ⟨natToBase36Aux n n []⟩

/-- ThemeProcessor.simpleHash (theme-processor part, lines 532-540):
`Math.abs(hash).toString(36)`. -/
def simpleHash (str : String) : String :=
  natToBase36 (simpleHashInt str).natAbs

/-- ThemeProcessor.generateThemeId (theme-processor part, lines 513-517),
with `Date.now()` supplied as the parameter `now`. -/
def generateThemeId (prompt : String) (now : ℕ) : String :=
  "ai-theme-" ++ simpleHash prompt ++ "-" ++ toString now

/-- JavaScript `s.charAt(0).toUpperCase() + s.slice(1)`. -/
def capitalizeFirst (s : String) : String :=
  match s.data with
  | [] => ""
  | c :: cs => ⟨c.toUpper :: cs⟩

/-- ThemeProcessor.generateThemeName (theme-processor part, lines 522-527). -/
def generateThemeName (prompt : String) : String :=
  let capitalized := capitalizeFirst (jsToLower (jsTrim prompt))
  if capitalized.length > 20 then ⟨capitalized.data.take 20⟩ ++ "..." else capitalized

/-- ThemeProcessor.validateGeneratedTheme (theme-processor part, lines
552-568).  The studyColors/breakColors presence checks are vacuous for a
well-typed theme record, and validateAccessibility only emits a console
warning (no control-flow effect), so neither appears here. -/
def validateGeneratedTheme (theme : GeneratedTheme) : Except String Unit :=
  if theme.name = "" ∨ (jsTrim theme.name).length = 0 then
    .error "Generated theme must have a name"
  else if theme.id = "" ∨ theme.originalPrompt = "" then
    .error "Generated theme must have ID and original prompt"
  else
    .ok ()

/-- The exception raised inside ThemeProcessor.processAIResponse.  Every
variant is re-wrapped by the source's outer catch into a
ThemeProcessingError whose message embeds printed floating-point numbers;
the payload data carried here is what the messages are rendered from. -/
inductive ProcessError where
  | structural (msg : String)
  | notUnique (dv : DiversityValidationResult)
  | similarToFallback (fv : ColorDistance)

open Classical in
/-- ThemeProcessor.processAIResponse (theme-processor part, lines 322-393),
with the `colorDiversityValidator` singleton session passed in and returned
explicitly and `Date.now()` supplied as `now`. -/
noncomputable def processAIResponse (aiResponse : AIThemeResponse)
    (originalPrompt : String) (sessionThemes : SessionState) (now : ℕ) :
    Except ProcessError (GeneratedTheme × SessionState) :=
  match validateAIResponse aiResponse with
  | .error m => .error (.structural m)
  | .ok _ =>
    let diversityValidation :=
      validateSessionUniqueness DEFAULT_DIVERSITY_CONFIG sessionThemes aiResponse
    if diversityValidation.isUnique then
      let fallbackValidation := validateAgainstFallback DEFAULT_DIVERSITY_CONFIG aiResponse
      if fallbackValidation.isSimilar then
        .error (.similarToFallback fallbackValidation)
      else
        let generatedTheme : GeneratedTheme :=
          { id := generateThemeId originalPrompt now
            name := if aiResponse.themeName = "" then generateThemeName originalPrompt
                    else aiResponse.themeName
            studyColors := convertToThemeColors aiResponse.studyColors
            breakColors := convertToThemeColors aiResponse.breakColors
            backgroundElements := processBackgroundElements aiResponse.visualElements
            animations := some (processAnimations aiResponse.visualElements.animations)
            originalPrompt := originalPrompt
            createdAt := now
            isCustom := true
            aiConfidence := some aiResponse.confidence
            diversityValidation := some diversityValidation }
        match validateGeneratedTheme generatedTheme with
        | .error m => .error (.structural m)
        | .ok _ => .ok (generatedTheme, addThemeToSession generatedTheme sessionThemes)
    else
      .error (.notUnique diversityValidation)

/-- The deterministic fallback theme built by ThemeProcessor.applyFallbackTheme
(theme-processor part, lines 610-663), with `Date.now()` supplied as `now`. -/
noncomputable def fallbackThemeFor (originalPrompt : String) (now : ℕ) : GeneratedTheme :=
  { id := generateThemeId originalPrompt now
    name := generateThemeName originalPrompt
    studyColors :=
      { primary := "#6B73FF", secondary := "#F0F2FF", accent := "#4C51BF"
        gradient := ["#F0F2FF", "#E6E8FF"], background := some "#F0F2FF" }
    breakColors :=
      { primary := "#48BB78", secondary := "#F0FFF4", accent := "#38A169"
        gradient := ["#F0FFF4", "#E6FFFA"], background := some "#F0FFF4" }
    backgroundElements :=
      [{ type := "gradient"
         config := .gradientCfg ["#f8f9fa", "#e9ecef"] "vertical" }]
    animations := some
      { duration := some 6000, easing := some "ease-in-out"
        particles := some ⟨6, 1, 3 / 10⟩ }
    originalPrompt := originalPrompt
    createdAt := now
    isCustom := true
    aiConfidence := some (5 / 10)
    diversityValidation := some
      { isUnique := False
        similarityScore := 1
        conflictingThemes := ["fallback"]
        recommendations := ["This is a fallback theme with default colors"]
        studyColorsDistance := 0
        breakColorsDistance := 0
        overallDistance := 0 } }

/-- ThemeProcessor.applyFallbackTheme (theme-processor part, lines 610-669):
builds the fixed fallback theme and registers it into the validator session. -/
noncomputable def applyFallbackTheme (originalPrompt : String)
    (sessionThemes : SessionState) (now : ℕ) : GeneratedTheme × SessionState :=
  (fallbackThemeFor originalPrompt now,
   addThemeToSession (fallbackThemeFor originalPrompt now) sessionThemes)

/-- ThemeGenerationResult (ai-theme-generator.ts:29-34); the optional
`usedFallback` flag (absent = falsy) is modelled as a Bool defaulting to
false. -/
structure ThemeGenerationResult where
  success : Bool
  theme : Option GeneratedTheme := none
  error : Option String := none
  usedFallback : Bool := false

/-- The caller-facing options of AIThemeGenerator.generateTheme
(ai-theme-generator.ts:20-26) that influence the retry loop; `timeout`,
`diversityLevel` and `previousThemes` only shape the outbound engine prompt,
which the attempt oracle abstracts. -/
structure ThemeGenerationOptions where
  retryAttempts : Option ℕ := none
  fallbackOnError : Option Bool := none

/-- The destructuring default of ai-theme-generator.ts:83:
`retryAttempts = Math.min(this.config.retryAttempts, 2)`.  The `Math.min`
clamp is only the DEFAULT value: a caller-supplied `options.retryAttempts`
is used unchanged. -/
def resolveRetryAttempts (requested : Option ℕ) (configRetryAttempts : ℕ) : ℕ :=
  requested.getD (min configRetryAttempts 2)

/-- What one iteration of the generateTheme retry loop can observe: the
external engine call, the diversity check, theme processing and the
contextual check are abstracted into the outcome of the attempt body
(ai-theme-generator.ts:125-151). -/
inductive AttemptOutcome where
  | success (theme : GeneratedTheme)
  | engineThrow (msg : String)
  | diversityReject (reason : String) (suggestions : List String)
  | processThrow (msg : String)
  | contextualReject (issues recommendations : List String)

/-- The exception message a failing attempt body produces, together with
whether the in-try `diversityFailures++` of ai-theme-generator.ts:140 ran;
`none` means the attempt succeeded.  Message shapes are those of
ai-theme-generator.ts:141 and :150. -/
def attemptThrown (o : AttemptOutcome) : Option (String × Bool) :=
  match o with
  | .success _ => none
  | .engineThrow msg => some (msg, false)
  | .diversityReject reason suggestions =>
    some ("Diversity validation failed: " ++ reason ++ ". " ++
      String.intercalate " " suggestions, true)
  | .processThrow msg => some (msg, false)
  | .contextualReject issues recommendations =>
    some ("Theme not contextually appropriate: " ++ String.intercalate ". " issues ++
      " " ++ String.intercalate " " recommendations, false)

/-- AIThemeGenerator.isNonRetryableError (ai-theme-generator.ts:303-314). -/
def isNonRetryableError (msg : String) : Bool :=
  let message := jsToLower msg
  jsIncludes message "invalid api key" ||
  jsIncludes message "invalid prompt" ||
  jsIncludes message "failed to parse" ||
  jsIncludes message "forbidden" ||
  jsIncludes message "invalid response from ai service"

/-- The retry wait of ai-theme-generator.ts:181:
`lastError.message.includes('diversity') ? 500 : Math.pow(2, attempt - 1) * 1000`.
Note the case-sensitive substring test. -/
def delayForRetry (lastErrorMessage : String) (attempt : ℕ) : ℕ :=
  if jsIncludes lastErrorMessage "diversity" then 500 else 2 ^ (attempt - 1) * 1000

/-- The catch-block increment condition of ai-theme-generator.ts:167:
`lastError.message.includes('diversity') || lastError.message.includes('similar')`. -/
def countsAsDiversityFailure (msg : String) : Bool :=
  jsIncludes msg "diversity" || jsIncludes msg "similar"

/-- Observable state of the generateTheme retry loop after it stops. -/
structure LoopResult where
  finished : Option GeneratedTheme
  attemptsMade : ℕ
  lastError : Option String
  diversityFailures : ℕ
  delays : List ℕ

/-- One pass of the retry loop of ai-theme-generator.ts:124-184, recursing on
the remaining iteration budget (`fuel = retryAttempts + 1 - attempt`). -/
def genLoopAux (outcome : ℕ → AttemptOutcome) (retryAttempts : ℕ) :
    ℕ → ℕ → ℕ → Option String → ℕ → List ℕ → LoopResult
  | 0, _, made, lastError, diversityFailures, delays =>
    { finished := none, attemptsMade := made, lastError := lastError
      diversityFailures := diversityFailures, delays := delays.reverse }
  | fuel + 1, attempt, made, lastError, diversityFailures, delays =>
    match attemptThrown (outcome attempt), outcome attempt with
    | none, .success theme =>
      { finished := some theme, attemptsMade := made + 1, lastError := lastError
        diversityFailures := diversityFailures, delays := delays.reverse }
    | some (msg, inTryIncrement), _ =>
      let diversityFailures := if inTryIncrement then diversityFailures + 1
                               else diversityFailures
      let diversityFailures := if countsAsDiversityFailure msg then diversityFailures + 1
                               else diversityFailures
      if attempt = retryAttempts ∨ isNonRetryableError msg then
        { finished := none, attemptsMade := made + 1, lastError := some msg
          diversityFailures := diversityFailures, delays := delays.reverse }
      else
        genLoopAux outcome retryAttempts fuel (attempt + 1) (made + 1) (some msg)
          diversityFailures (delayForRetry msg attempt :: delays)
    | none, _ =>
      { finished := none, attemptsMade := made, lastError := lastError
        diversityFailures := diversityFailures, delays := delays.reverse }

/-- The retry loop `for (let attempt = 1; attempt <= retryAttempts; attempt++)`
of ai-theme-generator.ts:124-184, driven by the abstract per-attempt outcome. -/
def genLoop (outcome : ℕ → AttemptOutcome) (retryAttempts : ℕ) : LoopResult :=
  genLoopAux outcome retryAttempts retryAttempts 1 0 none 0 []

/-- The post-loop error message assembly of ai-theme-generator.ts:187-190. -/
def exhaustionMessage (lr : LoopResult) : String :=
  (lr.lastError.getD "Theme generation failed after all retry attempts") ++
  (if lr.diversityFailures > 0 then
    " (" ++ toString lr.diversityFailures ++ " diversity validation failures)"
   else "")

/-- The result assembly of ai-theme-generator.ts:156-216: immediate success,
or on exhaustion either the fallback theme (fallbackOnError) or a failure
result.  The session map of the `colorDiversityValidator` singleton is
threaded explicitly (the successful attempt body updates it inside the
oracle; applyFallbackTheme registers the fallback theme). -/
noncomputable def finishGenerate (fallbackOnError : Bool) (prompt : String)
    (sessionThemes : SessionState) (now : ℕ) (lr : LoopResult) :
    ThemeGenerationResult × SessionState :=
  match lr.finished with
  | some theme =>
    ({ success := true, theme := some theme }, sessionThemes)
  | none =>
    let errorMessage := exhaustionMessage lr
    if fallbackOnError then
      let fallback := applyFallbackTheme prompt sessionThemes now
      ({ success := true
         theme := some fallback.1
         error := some ("AI generation failed: " ++ errorMessage ++ ". Using fallback theme.")
         usedFallback := true }, fallback.2)
    else
      ({ success := false, error := some errorMessage }, sessionThemes)

/-- AIThemeGenerator.generateTheme (ai-theme-generator.ts:78-216) from the
option destructuring through the retry loop to the final result.  The API-key
and prompt validation early returns (lines 93-107) precede this core and are
not modelled; `config.retryAttempts` is the constructor configuration value
(default 3). -/
noncomputable def generateThemeCore (options : ThemeGenerationOptions)
    (configRetryAttempts : ℕ) (outcome : ℕ → AttemptOutcome) (prompt : String)
    (sessionThemes : SessionState) (now : ℕ) : ThemeGenerationResult × SessionState :=
  let retryAttempts := resolveRetryAttempts options.retryAttempts configRetryAttempts
  let fallbackOnError := options.fallbackOnError.getD true
  finishGenerate fallbackOnError prompt sessionThemes now (genLoop outcome retryAttempts)

/-- JavaScript `Math.round` for the non-negative values produced by the HSL
conversion: round half up. -/
def jsRound (q : ℚ) : ℤ :=
  ⌊q + 1 / 2⌋

/-- An HSL triple as produced by ContextualColorValidator.hexToHsl
(h rounded to 0–360, s and l to 0–100). -/
structure HSL where
  h : ℤ
  s : ℤ
  l : ℤ
deriving DecidableEq, Repr

/-- ContextualColorValidator.hexToHsl (generated-theme-storage.ts bundle,
contextual-color-validator part, lines 768-799): standard min/max-channel
formula with the source's `switch (max)` matching r, then g, then b. -/
def hexToHsl (hex : String) : Option HSL :=
  match hexToRgb hex with
  | none => none
  | some rgb =>
    let r : ℚ := (rgb.r : ℚ) / 255
    let g : ℚ := (rgb.g : ℚ) / 255
    let b : ℚ := (rgb.b : ℚ) / 255
    let maxC := max r (max g b)
    let minC := min r (min g b)
    let l := (maxC + minC) / 2
    if maxC = minC then
      some ⟨0, 0, jsRound (l * 100)⟩
    else
      let d := maxC - minC
      let s := if l > 1 / 2 then d / (2 - maxC - minC) else d / (maxC + minC)
      let h := if maxC = r then (g - b) / d + (if g < b then 6 else 0)
               else if maxC = g then (b - r) / d + 2
               else (r - g) / d + 4
      let h := h / 6
      some ⟨jsRound (h * 360), jsRound (s * 100), jsRound (l * 100)⟩

/-- ColorFamily (contextual-color-validator part, lines 317-323). -/
structure ColorFamily where
  name : String
  hueRange : ℚ × ℚ
  saturationRange : ℚ × ℚ
  lightnessRange : ℚ × ℚ
  expectedColors : List String
deriving DecidableEq, Repr

/-- COLOR_FAMILIES.blues (contextual-color-validator part, lines 356-361). -/
def familyBlues : ColorFamily :=
  { name := "Blues", hueRange := (180, 240), saturationRange := (30, 100)
    lightnessRange := (20, 80)
    expectedColors := ["#0077BE", "#4A90E2", "#87CEEB", "#20B2AA", "#008B8B"] }

/-- COLOR_FAMILIES.oranges (lines 363-368); a wraparound hue range. -/
def familyOranges : ColorFamily :=
  { name := "Oranges/Reds", hueRange := (340, 60), saturationRange := (40, 100)
    lightnessRange := (30, 80)
    expectedColors := ["#FF6B35", "#F7931E", "#FFD23F", "#FF8C42", "#E74C3C"] }

/-- COLOR_FAMILIES.greens (lines 370-375). -/
def familyGreens : ColorFamily :=
  { name := "Greens", hueRange := (80, 160), saturationRange := (30, 100)
    lightnessRange := (25, 75)
    expectedColors := ["#228B22", "#32CD32", "#90EE90", "#006400", "#8FBC8F"] }

/-- COLOR_FAMILIES.purples (lines 377-382). -/
def familyPurples : ColorFamily :=
  { name := "Purples", hueRange := (240, 300), saturationRange := (30, 100)
    lightnessRange := (25, 75)
    expectedColors := ["#191970", "#4B0082", "#483D8B", "#6A5ACD", "#9370DB"] }

/-- COLOR_FAMILIES.grays (lines 384-389). -/
def familyGrays : ColorFamily :=
  { name := "Grays/Blues", hueRange := (200, 240), saturationRange := (10, 50)
    lightnessRange := (40, 80)
    expectedColors := ["#708090", "#2F4F4F", "#B0C4DE", "#4682B4", "#5F9EA0"] }

/-- COLOR_FAMILIES.pastels (lines 391-396). -/
def familyPastels : ColorFamily :=
  { name := "Pastels", hueRange := (0, 360), saturationRange := (20, 60)
    lightnessRange := (70, 90)
    expectedColors := ["#98FB98", "#FFB6C1", "#F0E68C", "#DDA0DD", "#87CEFA"] }

/-- COLOR_FAMILIES.cool (lines 398-403). -/
def familyCool : ColorFamily :=
  { name := "Cool Colors", hueRange := (180, 300), saturationRange := (20, 80)
    lightnessRange := (60, 90)
    expectedColors := ["#B0E0E6", "#E0FFFF", "#F0F8FF", "#DCDCDC", "#C0C0C0"] }

/-- AnimationContext (contextual-color-validator part, lines 326-330). -/
structure AnimationContext where
  appropriateTypes : List String
  inappropriateTypes : List String
  expectedMood : List String
deriving DecidableEq, Repr

/-- SemanticContext (contextual-color-validator part, lines 343-349). -/
structure SemanticContext where
  keywords : List String
  expectedColorFamilies : List ColorFamily
  animationContext : AnimationContext
  moodDescriptors : List String
  visualMetaphors : List String
deriving DecidableEq, Repr

/-- SEMANTIC_CONTEXTS.ocean (contextual-color-validator part, lines 408-421). -/
def contextOcean : SemanticContext :=
  { keywords := ["ocean", "sea", "water", "wave", "marine", "aquatic", "blue", "deep"]
    expectedColorFamilies := [familyBlues, familyCool]
    animationContext :=
      { appropriateTypes := ["flowing", "wave", "ripple", "drift", "gentle", "fluid"]
        inappropriateTypes := ["flicker", "dance", "intensity", "sharp", "angular"]
        expectedMood := ["calm", "flowing", "deep", "refreshing", "serene"] }
    moodDescriptors := ["calm", "flowing", "deep", "refreshing"]
    visualMetaphors := ["waves", "currents", "depths", "tides"] }

/-- SEMANTIC_CONTEXTS.sunset (lines 422-434). -/
def contextSunset : SemanticContext :=
  { keywords := ["sunset", "sunrise", "golden", "warm", "evening", "dusk", "orange", "red"]
    expectedColorFamilies := [familyOranges]
    animationContext :=
      { appropriateTypes := ["fade", "glow", "gradient-shift", "gentle", "warm", "soft"]
        inappropriateTypes := ["sharp", "cold", "crystalline", "harsh"]
        expectedMood := ["warm", "peaceful", "golden", "serene"] }
    moodDescriptors := ["warm", "peaceful", "golden", "serene"]
    visualMetaphors := ["horizon", "golden hour", "warm glow", "evening sky"] }

/-- SEMANTIC_CONTEXTS.forest (lines 435-447). -/
def contextForest : SemanticContext :=
  { keywords := ["forest", "tree", "nature", "green", "woods", "natural", "leaf", "plant"]
    expectedColorFamilies := [familyGreens]
    animationContext :=
      { appropriateTypes := ["gentle-sway", "organic", "natural", "growth", "rustle"]
        inappropriateTypes := ["mechanical", "artificial", "harsh", "metallic"]
        expectedMood := ["natural", "grounded", "fresh", "alive"] }
    moodDescriptors := ["natural", "grounded", "fresh", "alive"]
    visualMetaphors := ["leaves", "branches", "canopy", "growth"] }

/-- SEMANTIC_CONTEXTS.mountain (lines 448-461). -/
def contextMountain : SemanticContext :=
  { keywords := ["mountain", "peak", "stone", "rock", "elevation", "high", "summit"]
    expectedColorFamilies := [familyGrays, familyBlues]
    animationContext :=
      { appropriateTypes := ["steady", "solid", "majestic", "strong", "stable"]
        inappropriateTypes := ["fluid", "flowing", "soft", "delicate"]
        expectedMood := ["strong", "stable", "elevated", "enduring"] }
    moodDescriptors := ["strong", "stable", "elevated", "enduring"]
    visualMetaphors := ["peaks", "stone", "elevation", "strength"] }

/-- SEMANTIC_CONTEXTS.fire (lines 462-474). -/
def contextFire : SemanticContext :=
  { keywords := ["fire", "flame", "heat", "energy", "red", "orange", "burn", "hot"]
    expectedColorFamilies := [familyOranges]
    animationContext :=
      { appropriateTypes := ["flicker", "dance", "intensity", "dynamic", "energetic"]
        inappropriateTypes := ["calm", "still", "cold", "frozen", "crystalline"]
        expectedMood := ["energetic", "passionate", "dynamic", "intense"] }
    moodDescriptors := ["energetic", "passionate", "dynamic", "intense"]
    visualMetaphors := ["flames", "ember", "heat", "energy"] }

/-- SEMANTIC_CONTEXTS.space (lines 475-488). -/
def contextSpace : SemanticContext :=
  { keywords := ["space", "cosmic", "star", "galaxy", "universe", "nebula", "dark", "void"]
    expectedColorFamilies := [familyPurples, familyBlues]
    animationContext :=
      { appropriateTypes := ["drift", "cosmic", "stellar", "mysterious", "floating"]
        inappropriateTypes := ["earthly", "grounded", "natural", "organic"]
        expectedMood := ["mysterious", "vast", "contemplative", "infinite"] }
    moodDescriptors := ["mysterious", "vast", "contemplative", "infinite"]
    visualMetaphors := ["stars", "nebula", "cosmos", "infinity"] }

/-- SEMANTIC_CONTEXTS.spring (lines 489-502). -/
def contextSpring : SemanticContext :=
  { keywords := ["spring", "bloom", "fresh", "new", "growth", "renewal", "pastel", "light"]
    expectedColorFamilies := [familyPastels, familyGreens]
    animationContext :=
      { appropriateTypes := ["bloom", "gentle", "fresh", "growth", "renewal"]
        inappropriateTypes := ["harsh", "dark", "heavy", "winter"]
        expectedMood := ["fresh", "hopeful", "vibrant", "renewing"] }
    moodDescriptors := ["fresh", "hopeful", "vibrant", "renewing"]
    visualMetaphors := ["blossoms", "renewal", "growth", "awakening"] }

/-- SEMANTIC_CONTEXTS.winter (lines 503-516). -/
def contextWinter : SemanticContext :=
  { keywords := ["winter", "snow", "ice", "cold", "frost", "white", "crystal", "frozen"]
    expectedColorFamilies := [familyCool, familyGrays]
    animationContext :=
      { appropriateTypes := ["crystalline", "crisp", "serene", "gentle", "floating"]
        inappropriateTypes := ["warm", "hot", "fiery", "intense", "flicker"]
        expectedMood := ["crisp", "clean", "peaceful", "pure"] }
    moodDescriptors := ["crisp", "clean", "peaceful", "pure"]
    visualMetaphors := ["snow", "ice", "frost", "clarity"] }

/-- The declaration-ordered `Object.values(SEMANTIC_CONTEXTS)`
(contextual-color-validator part, lines 407-517). -/
def SEMANTIC_CONTEXTS : List SemanticContext :=
  [contextOcean, contextSunset, contextForest, contextMountain,
   contextFire, contextSpace, contextSpring, contextWinter]

/-- Keyword match count of one context against a lower-cased prompt
(contextual-color-validator part, lines 568-570). -/
def contextMatchCount (lowerPrompt : String) (context : SemanticContext) : ℕ :=
  (context.keywords.filter fun keyword => jsIncludes lowerPrompt keyword).length

/-- ContextualColorValidator.identifySemanticContext (contextual-color-
validator part, lines 560-579): best keyword-overlap context, strict
improvement only (ties keep the earlier context), null when nothing matches. -/
def identifySemanticContext (prompt : String) : Option SemanticContext :=
  let lowerPrompt := jsToLower prompt
  let best := SEMANTIC_CONTEXTS.foldl
    (fun (acc : Option SemanticContext × ℕ) context =>
      if contextMatchCount lowerPrompt context > acc.2 then
        (some context, contextMatchCount lowerPrompt context)
      else acc)
    (none, 0)
  if best.2 > 0 then best.1 else none

/-- ContextualColorValidator.calculateColorFamilyScore (contextual-color-
validator part, lines 714-763). -/
def calculateColorFamilyScore (hsl : HSL) (family : ColorFamily) : ℚ :=
  let h : ℚ := (hsl.h : ℚ)
  let s : ℚ := (hsl.s : ℚ)
  let l : ℚ := (hsl.l : ℚ)
  let minHue := family.hueRange.1
  let maxHue := family.hueRange.2
  let hueScore0 : ℚ :=
    if minHue ≤ maxHue then (if minHue ≤ h ∧ h ≤ maxHue then 1 else 0)
    else (if h ≥ minHue ∨ h ≤ maxHue then 1 else 0)
  let hueScore :=
    if hueScore0 = 0 then
      let hueDistance :=
        if minHue ≤ maxHue then min |h - minHue| |h - maxHue|
        else min (min |h - minHue| (360 - |h - minHue|))
                 (min |h - maxHue| (360 - |h - maxHue|))
      let penalized := max 0 (1 - hueDistance / 60)
      if hueDistance > 60 then 0 else penalized
    else hueScore0
  let minSat := family.saturationRange.1
  let maxSat := family.saturationRange.2
  let satScore : ℚ :=
    if minSat ≤ s ∧ s ≤ maxSat then 1
    else max 0 (1 - |s - (minSat + maxSat) / 2| / 50)
  let minLight := family.lightnessRange.1
  let maxLight := family.lightnessRange.2
  let lightScore : ℚ :=
    if minLight ≤ l ∧ l ≤ maxLight then 1
    else max 0 (1 - |l - (minLight + maxLight) / 2| / 50)
  hueScore * (7 / 10) + satScore * (2 / 10) + lightScore * (1 / 10)

/-- ContextualColorValidator.calculateColorFamilyMatch (contextual-color-
validator part, lines 687-709): colors that fail to parse are skipped; each
parsed color contributes its best family score; neutral 0.5 when there are
no expected families, 0 when no color parses. -/
def calculateColorFamilyMatch (colors : List String)
    (expectedFamilies : List ColorFamily) : ℚ :=
  if expectedFamilies.length = 0 then 1 / 2
  else
    let acc := colors.foldl
      (fun (acc : ℚ × ℕ) color =>
        match hexToHsl color with
        | none => acc
        | some hsl =>
          let bestFamilyScore := expectedFamilies.foldl
            (fun best family => max best (calculateColorFamilyScore hsl family)) 0
          (acc.1 + bestFamilyScore, acc.2 + 1))
      (0, 0)
    if acc.2 > 0 then acc.1 / (acc.2 : ℚ) else 0

/-- Score/issues/recommendations triple returned by the two private
appropriateness scorers. -/
structure ScoreReport where
  score : ℚ
  issues : List String
  recommendations : List String
deriving DecidableEq, Repr

/-- ContextualColorValidator.validateColorAppropriateness (contextual-color-
validator part, lines 584-620). -/
def validateColorAppropriateness (aiResponse : AIThemeResponse)
    (context : SemanticContext) : ScoreReport :=
  let studyColorScore := calculateColorFamilyMatch
    [aiResponse.studyColors.primary, aiResponse.studyColors.secondary,
     aiResponse.studyColors.accent] context.expectedColorFamilies
  let breakColorScore := calculateColorFamilyMatch
    [aiResponse.breakColors.primary, aiResponse.breakColors.secondary,
     aiResponse.breakColors.accent] context.expectedColorFamilies
  let familiesText := String.intercalate ", "
    (context.expectedColorFamilies.map ColorFamily.name)
  { score := (studyColorScore + breakColorScore) / 2
    issues :=
      (if studyColorScore < 4 / 10 then
        ["Study colors do not match expected color families for this prompt"] else []) ++
      (if breakColorScore < 4 / 10 then
        ["Break colors do not match expected color families for this prompt"] else [])
    recommendations :=
      (if studyColorScore < 4 / 10 then
        ["Consider using colors from: " ++ familiesText] else []) ++
      (if breakColorScore < 4 / 10 then
        ["Consider using colors from: " ++ familiesText] else []) }

/-- Classification of one animation against a context: substring match in
either direction against the appropriate types (contextual-color-validator
part, lines 648-650). -/
def animationIsAppropriate (context : SemanticContext) (animationType : String) : Bool :=
  context.animationContext.appropriateTypes.any fun ty =>
    jsIncludes animationType (jsToLower ty) || jsIncludes (jsToLower ty) animationType

/-- Substring match in either direction against the inappropriate types
(contextual-color-validator part, lines 652-654). -/
def animationIsInappropriate (context : SemanticContext) (animationType : String) : Bool :=
  context.animationContext.inappropriateTypes.any fun ty =>
    jsIncludes animationType (jsToLower ty) || jsIncludes (jsToLower ty) animationType

/-- ContextualColorValidator.validateAnimationAppropriateness (contextual-
color-validator part, lines 625-682). -/
def validateAnimationAppropriateness (aiResponse : AIThemeResponse)
    (context : SemanticContext) : ScoreReport :=
  match aiResponse.visualElements.animations with
  | none =>
    { score := 1 / 2
      issues := ["No animations specified"]
      recommendations := ["Consider adding " ++
        String.intercalate " or " context.animationContext.appropriateTypes ++
        " animations"] }
  | some [] =>
    { score := 1 / 2
      issues := ["No animations specified"]
      recommendations := ["Consider adding " ++
        String.intercalate " or " context.animationContext.appropriateTypes ++
        " animations"] }
  | some animations =>
    let counts := animations.foldl
      (fun (acc : ℕ × ℕ × List String) animation =>
        if animationIsAppropriate context (jsToLower animation.type) then
          (acc.1 + 1, acc.2.1, acc.2.2)
        else if animationIsInappropriate context (jsToLower animation.type) then
          (acc.1, acc.2.1 + 1, acc.2.2 ++
            ["Animation type \"" ++ animation.type ++
             "\" is inappropriate for this context"])
        else acc)
      (0, 0, [])
    let appropriateCount := counts.1
    let inappropriateCount := counts.2.1
    let totalAnimations := animations.length
    let appTypesText := String.intercalate ", " context.animationContext.appropriateTypes
    let score : ℚ :=
      if totalAnimations > 0 then
        max 0 (((appropriateCount : ℚ) - (inappropriateCount : ℚ)) / (totalAnimations : ℚ))
      else 1 / 2
    { score := max 0 (min 1 score)
      issues := counts.2.2
      recommendations :=
        (if inappropriateCount > 0 then
          ["Use " ++ appTypesText ++ " animations instead"] else []) ++
        (if appropriateCount = 0 ∧ totalAnimations > 0 then
          ["Consider using contextually appropriate animations: " ++ appTypesText]
         else []) }

/-- ContextualValidationResult (contextual-color-validator part, lines
333-340). -/
structure ContextualValidationResult where
  isAppropriate : Bool
  colorAppropriatenessScore : ℚ
  animationAppropriatenessScore : ℚ
  overallScore : ℚ
  issues : List String
  recommendations : List String
deriving DecidableEq, Repr

/-- The neutral result returned when no semantic context is identified
(contextual-color-validator part, lines 528-537). -/
def neutralContextualResult : ContextualValidationResult :=
  { isAppropriate := true
    colorAppropriatenessScore := 7 / 10
    animationAppropriatenessScore := 7 / 10
    overallScore := 7 / 10
    issues := []
    recommendations :=
      ["Consider using more specific prompt keywords for better contextual validation"] }

/-- ContextualColorValidator.validateContextualAppropriateness (contextual-
color-validator part, lines 522-555). -/
def validateContextualAppropriateness (prompt : String)
    (aiResponse : AIThemeResponse) : ContextualValidationResult :=
  match identifySemanticContext prompt with
  | none => neutralContextualResult
  | some context =>
    let colorScore := validateColorAppropriateness aiResponse context
    let animationScore := validateAnimationAppropriateness aiResponse context
    let overallScore := (colorScore.score + animationScore.score) / 2
    { isAppropriate := decide (overallScore ≥ 6 / 10)
      colorAppropriatenessScore := colorScore.score
      animationAppropriatenessScore := animationScore.score
      overallScore := overallScore
      issues := colorScore.issues ++ animationScore.issues
      recommendations := colorScore.recommendations ++ animationScore.recommendations }

/-- Maximum of `g` over a list (0 on the empty list). -/
def gMax {α : Type} (g : α → ℕ) : List α → ℕ
  | [] => 0
  | x :: xs => max (g x) (gMax g xs)

/-- The specification's context resolver, written from its words: the context
whose keyword list has the greatest number of substring matches in the
lower-cased prompt, ties resolved to the first context in declaration order
with the maximum count, and null exactly when no context has at least one
match. -/
def spec_resolveContext (prompt : String) : Option SemanticContext :=
  let lowerPrompt := jsToLower prompt
  let best := gMax (contextMatchCount lowerPrompt) SEMANTIC_CONTEXTS
  if best = 0 then none
  else SEMANTIC_CONTEXTS.find? fun c => contextMatchCount lowerPrompt c == best

/-- The strict-improvement argmax fold used by identifySemanticContext keeps
the first element attaining the running maximum. -/
theorem foldl_argmax {α : Type} (g : α → ℕ) (l : List α) :
    ∀ (b0 : Option α) (m0 : ℕ),
    l.foldl (fun acc x => if g x > acc.2 then (some x, g x) else acc) (b0, m0) =
    if m0 < gMax g l then (l.find? fun x => g x == gMax g l, gMax g l) else (b0, m0) := by
  induction l with
  | nil =>
    intro b0 m0
    simp [gMax]
  | cons x xs ih =>
    intro b0 m0
    simp only [List.foldl_cons, gMax]
    by_cases hx : g x > m0
    · rw [if_pos hx, ih]
      by_cases h2 : g x < gMax g xs
      · rw [if_pos h2]
        have hmax : max (g x) (gMax g xs) = gMax g xs := max_eq_right h2.le
        rw [hmax, if_pos (lt_trans hx h2)]
        have hfind : (List.find? (fun y => g y == gMax g xs) (x :: xs)) =
            List.find? (fun y => g y == gMax g xs) xs := by
          rw [List.find?_cons_of_neg]
          simp only [beq_iff_eq]
          exact h2.ne
        rw [hfind]
      · have hge : gMax g xs ≤ g x := le_of_not_lt h2
        have hmax : max (g x) (gMax g xs) = g x := max_eq_left hge
        rw [if_neg (by simpa using le_of_not_lt h2), hmax, if_pos hx]
        have hfind : (List.find? (fun y => g y == g x) (x :: xs)) = some x := by
          rw [List.find?_cons_of_pos]
          simp
        rw [hfind]
    · rw [if_neg hx, ih]
      have hxle : g x ≤ m0 := le_of_not_lt hx
      by_cases h3 : m0 < gMax g xs
      · rw [if_pos h3]
        have hmax : max (g x) (gMax g xs) = gMax g xs :=
          max_eq_right (le_trans hxle h3.le)
        rw [hmax, if_pos h3]
        have hfind : (List.find? (fun y => g y == gMax g xs) (x :: xs)) =
            List.find? (fun y => g y == gMax g xs) xs := by
          rw [List.find?_cons_of_neg]
          simp only [beq_iff_eq]
          exact ne_of_lt (lt_of_le_of_lt hxle h3)
        rw [hfind]
      · rw [if_neg h3]
        have : ¬ m0 < max (g x) (gMax g xs) := by
          rw [not_lt, max_le_iff]
          exact ⟨hxle, le_of_not_lt h3⟩
        rw [if_neg this]

/-- C5: for every prompt, identifySemanticContext lower-cases the prompt and
returns the declared context with the greatest number of keyword substring
matches, ties resolved to the first context in declaration order with the
maximum count, and returns null exactly when no context has at least one
keyword match — i.e. it coincides with the resolver written from the
specification's words. -/
theorem spec2proof_c5 (prompt : String) :
    identifySemanticContext prompt = spec_resolveContext prompt := by
  unfold identifySemanticContext spec_resolveContext
  dsimp only
  rw [foldl_argmax]
  by_cases h : gMax (contextMatchCount (jsToLower prompt)) SEMANTIC_CONTEXTS = 0
  · rw [h]
    simp
  · have hpos : 0 < gMax (contextMatchCount (jsToLower prompt)) SEMANTIC_CONTEXTS :=
      Nat.pos_of_ne_zero h
    rw [if_pos hpos, if_neg h]
    simp [hpos]

/-- The specification's count of appropriate animations: those whose
lower-cased type matches the context's appropriate list by substring in
either direction. -/
def spec_appropriateCount (context : SemanticContext)
    (animations : List AnimationSuggestion) : ℕ :=
  (animations.filter fun a => animationIsAppropriate context (jsToLower a.type)).length

/-- The specification's count of inappropriate animations: those not counted
appropriate whose lower-cased type matches the context's inappropriate list. -/
def spec_inappropriateCount (context : SemanticContext)
    (animations : List AnimationSuggestion) : ℕ :=
  (animations.filter fun a =>
    !(animationIsAppropriate context (jsToLower a.type)) &&
      animationIsInappropriate context (jsToLower a.type)).length

/-- The classification fold of validateAnimationAppropriateness counts
exactly the specification's appropriate and inappropriate animations. -/
theorem anim_fold_counts (context : SemanticContext) (l : List AnimationSuggestion) :
    ∀ (a0 i0 : ℕ) (is0 : List String),
    (l.foldl
      (fun (acc : ℕ × ℕ × List String) animation =>
        if animationIsAppropriate context (jsToLower animation.type) then
          (acc.1 + 1, acc.2.1, acc.2.2)
        else if animationIsInappropriate context (jsToLower animation.type) then
          (acc.1, acc.2.1 + 1, acc.2.2 ++
            ["Animation type \"" ++ animation.type ++
             "\" is inappropriate for this context"])
        else acc)
      (a0, i0, is0)).1 = a0 + spec_appropriateCount context l ∧
    (l.foldl
      (fun (acc : ℕ × ℕ × List String) animation =>
        if animationIsAppropriate context (jsToLower animation.type) then
          (acc.1 + 1, acc.2.1, acc.2.2)
        else if animationIsInappropriate context (jsToLower animation.type) then
          (acc.1, acc.2.1 + 1, acc.2.2 ++
            ["Animation type \"" ++ animation.type ++
             "\" is inappropriate for this context"])
        else acc)
      (a0, i0, is0)).2.1 = i0 + spec_inappropriateCount context l := by
  induction l with
  | nil =>
    intro a0 i0 is0
    simp [spec_appropriateCount, spec_inappropriateCount]
  | cons x xs ih =>
    intro a0 i0 is0
    simp only [List.foldl_cons]
    by_cases hApp : animationIsAppropriate context (jsToLower x.type)
    · rw [if_pos hApp]
      have := ih (a0 + 1) i0 is0
      constructor
      · rw [this.1]
        simp [spec_appropriateCount, hApp]
        omega
      · rw [this.2]
        simp [spec_inappropriateCount, hApp]
    · rw [if_neg hApp]
      by_cases hInapp : animationIsInappropriate context (jsToLower x.type)
      · rw [if_pos hInapp]
        have := ih a0 (i0 + 1) (is0 ++
          ["Animation type \"" ++ x.type ++ "\" is inappropriate for this context"])
        constructor
        · rw [this.1]
          simp [spec_appropriateCount, hApp]
        · rw [this.2]
          simp [spec_inappropriateCount, hApp, hInapp]
          omega
      · rw [if_neg hInapp]
        have := ih a0 i0 is0
        constructor
        · rw [this.1]
          simp [spec_appropriateCount, hApp]
        · rw [this.2]
          simp [spec_inappropriateCount, hApp, hInapp]

/-- Clamping identity: the source's `Math.max(0, Math.min(1, max 0 x))` equals
the specification's clamp of `max 0 x` into the unit interval. -/
theorem max_min_clamp (x : ℚ) : max 0 (min 1 (max 0 x)) = min 1 (max 0 x) :=
  max_eq_right (le_min zero_le_one (le_max_left 0 x))

/-- C7: for a candidate with at least one declared animation, the animation
appropriateness score equals max(0, (appropriate − inappropriate) / total)
clamped to the unit interval, with animations classified by bidirectional
substring match against the context's appropriate and inappropriate type
lists; a candidate declaring zero animations gets the neutral score 0.5 and a
recommendation naming the context's appropriate types. -/
theorem spec2proof_c7 (aiResponse : AIThemeResponse) (context : SemanticContext) :
    (aiResponse.visualElements.animations.getD [] = [] →
      (validateAnimationAppropriateness aiResponse context).score = 1 / 2 ∧
      (validateAnimationAppropriateness aiResponse context).recommendations =
        ["Consider adding " ++
          String.intercalate " or " context.animationContext.appropriateTypes ++
          " animations"]) ∧
    (∀ animations, aiResponse.visualElements.animations = some animations →
      animations ≠ [] →
      (validateAnimationAppropriateness aiResponse context).score =
        min 1 (max 0 (((spec_appropriateCount context animations : ℚ) -
          (spec_inappropriateCount context animations : ℚ)) /
          (animations.length : ℚ))) ∧
      0 ≤ (validateAnimationAppropriateness aiResponse context).score ∧
      (validateAnimationAppropriateness aiResponse context).score ≤ 1) := by
  cases hAnims : aiResponse.visualElements.animations with
  | none =>
    constructor
    · intro _
      constructor
      · simp [validateAnimationAppropriateness, hAnims]
      · simp [validateAnimationAppropriateness, hAnims]
    · intro animations hsome
      exact absurd hsome (by simp)
  | some l =>
    cases l with
    | nil =>
      constructor
      · intro _
        constructor
        · simp [validateAnimationAppropriateness, hAnims]
        · simp [validateAnimationAppropriateness, hAnims]
      · intro animations hsome hne
        have : animations = [] := by simpa using hsome.symm
        exact absurd this hne
    | cons x xs =>
      constructor
      · intro hempty
        simp at hempty
      · intro animations hsome _
        have heq : animations = x :: xs := by simpa using hsome.symm
        subst heq
        have hfold := anim_fold_counts context (x :: xs) 0 0 []
        have hscore : (validateAnimationAppropriateness aiResponse context).score =
            max 0 (min 1 (max 0 (((spec_appropriateCount context (x :: xs) : ℚ) -
              (spec_inappropriateCount context (x :: xs) : ℚ)) /
              ((x :: xs).length : ℚ)))) := by
          simp only [validateAnimationAppropriateness, hAnims]
          rw [hfold.1, hfold.2]
          have hlen : 0 < (x :: xs).length := by simp
          rw [if_pos hlen]
          simp
        refine ⟨?_, ?_, ?_⟩
        · rw [hscore, max_min_clamp]
        · rw [hscore, max_min_clamp]
          exact le_min zero_le_one (le_max_left _ _)
        · rw [hscore, max_min_clamp]
          exact min_le_left _ _

/-- A color block used by concrete test inputs (ocean-family colors). -/
def witnessColors : AIColorSpec :=
  { primary := "#0077BE", secondary := "#87CEEB", accent := "#20B2AA" }

/-- A concrete candidate declaring no animations. -/
def respNoAnimations : AIThemeResponse :=
  { studyColors := witnessColors
    breakColors := witnessColors
    visualElements := { backgroundType := .gradient, elements := [], animations := none }
    themeName := "Ocean"
    confidence := 1 }

/-- A concrete candidate declaring one `wave` animation. -/
def respWaveAnimation : AIThemeResponse :=
  { studyColors := witnessColors
    breakColors := witnessColors
    visualElements :=
      { backgroundType := .gradient, elements := []
        animations := some [⟨"wave", 6000⟩] }
    themeName := "Ocean"
    confidence := 1 }

/-- Witness for C7 at two concrete candidates against the ocean context. -/
theorem spec2proof_c7_witness :
    ((validateAnimationAppropriateness respNoAnimations contextOcean).score = 1 / 2 ∧
     (validateAnimationAppropriateness respNoAnimations contextOcean).recommendations =
       ["Consider adding " ++
         String.intercalate " or " contextOcean.animationContext.appropriateTypes ++
         " animations"]) ∧
    ((validateAnimationAppropriateness respWaveAnimation contextOcean).score =
        min 1 (max 0 (((spec_appropriateCount contextOcean [⟨"wave", 6000⟩] : ℚ) -
          (spec_inappropriateCount contextOcean [⟨"wave", 6000⟩] : ℚ)) /
          (([(⟨"wave", 6000⟩ : AnimationSuggestion)].length : ℚ)))) ∧
      0 ≤ (validateAnimationAppropriateness respWaveAnimation contextOcean).score ∧
      (validateAnimationAppropriateness respWaveAnimation contextOcean).score ≤ 1) :=
  ⟨(spec2proof_c7 respNoAnimations contextOcean).1 rfl,
   (spec2proof_c7 respWaveAnimation contextOcean).2 [⟨"wave", 6000⟩] rfl (by simp)⟩

/-- Two strings differ when they already differ within the first `n`
characters of the left factor. -/
theorem append_ne_of_take_ne (p y q : String) (n : ℕ) (hn : n ≤ p.data.length)
    (h : p.data.take n ≠ q.data.take n) : p ++ y ≠ q := by
  intro he
  apply h
  have hd : (p ++ y).data = q.data := congrArg String.data he
  rw [String.data_append] at hd
  rw [← hd, List.take_append_of_le_length hn]

/-- No color-family recommendation is the neutral-result recommendation. -/
theorem crec_ne_neutral (y : String) :
    "Consider using colors from: " ++ y ≠
    "Consider using more specific prompt keywords for better contextual validation" :=
  append_ne_of_take_ne _ y _ 16 (by decide) (by decide)

/-- No zero-animation recommendation is the neutral-result recommendation. -/
theorem cadd_ne_neutral (y : String) :
    "Consider adding " ++ y ≠
    "Consider using more specific prompt keywords for better contextual validation" :=
  append_ne_of_take_ne _ y _ 10 (by decide) (by decide)

/-- No replace-animations recommendation is the neutral-result recommendation. -/
theorem use_ne_neutral (y : String) :
    "Use " ++ y ≠
    "Consider using more specific prompt keywords for better contextual validation" :=
  append_ne_of_take_ne _ y _ 1 (by decide) (by decide)

/-- No appropriate-animations recommendation is the neutral-result
recommendation. -/
theorem capp_ne_neutral (y : String) :
    "Consider using contextually appropriate animations: " ++ y ≠
    "Consider using more specific prompt keywords for better contextual validation" :=
  append_ne_of_take_ne _ y _ 16 (by decide) (by decide)

/-- Every recommendation of the color scorer is a color-family
recommendation. -/
theorem colorRecs_shape (aiResponse : AIThemeResponse) (context : SemanticContext) :
    ∀ r ∈ (validateColorAppropriateness aiResponse context).recommendations,
    ∃ y, r = "Consider using colors from: " ++ y := by
  intro r hr
  simp only [validateColorAppropriateness] at hr
  rcases List.mem_append.mp hr with h | h <;> [skip; skip] <;>
    { split at h
      · simp at h
        exact ⟨_, h⟩
      · simp at h }

/-- Every recommendation of the animation scorer has one of the three
template shapes. -/
theorem animRecs_shape (aiResponse : AIThemeResponse) (context : SemanticContext) :
    ∀ r ∈ (validateAnimationAppropriateness aiResponse context).recommendations,
    (∃ y, r = "Consider adding " ++ y) ∨ (∃ y, r = "Use " ++ y) ∨
    (∃ y, r = "Consider using contextually appropriate animations: " ++ y) := by
  intro r hr
  cases hAnims : aiResponse.visualElements.animations with
  | none =>
    simp only [validateAnimationAppropriateness, hAnims] at hr
    simp at hr
    exact Or.inl ⟨_, by rw [hr, String.append_assoc]⟩
  | some l =>
    cases l with
    | nil =>
      simp only [validateAnimationAppropriateness, hAnims] at hr
      simp at hr
      exact Or.inl ⟨_, by rw [hr, String.append_assoc]⟩
    | cons x xs =>
      simp only [validateAnimationAppropriateness, hAnims] at hr
      rcases List.mem_append.mp hr with h | h
      · split at h
        · simp at h
          exact Or.inr (Or.inl ⟨_, by rw [h, String.append_assoc]⟩)
        · simp at h
      · split at h
        · simp at h
          exact Or.inr (Or.inr ⟨_, h⟩)
        · simp at h

/-- C6: validateContextualAppropriateness returns the neutral result
(scores 0.7, isAppropriate, the more-specific-keywords recommendation)
exactly when no semantic context resolves for the prompt; otherwise the
overall score is the even average of the color and animation scores and
isAppropriate holds exactly when the overall score is at least 0.6. -/
theorem spec2proof_c6 (prompt : String) (aiResponse : AIThemeResponse) :
    (validateContextualAppropriateness prompt aiResponse = neutralContextualResult ↔
      identifySemanticContext prompt = none) ∧
    (∀ context, identifySemanticContext prompt = some context →
      (validateContextualAppropriateness prompt aiResponse).overallScore =
        1 / 2 * (validateContextualAppropriateness prompt aiResponse).colorAppropriatenessScore +
        1 / 2 * (validateContextualAppropriateness prompt aiResponse).animationAppropriatenessScore ∧
      ((validateContextualAppropriateness prompt aiResponse).isAppropriate = true ↔
        (validateContextualAppropriateness prompt aiResponse).overallScore ≥ 6 / 10)) := by
  cases hctx : identifySemanticContext prompt with
  | none =>
    constructor
    · simp [validateContextualAppropriateness, hctx]
    · intro context hsome
      simp at hsome
  | some context =>
    constructor
    · constructor
      · intro heq
        exfalso
        have hrecs : (validateColorAppropriateness aiResponse context).recommendations ++
            (validateAnimationAppropriateness aiResponse context).recommendations =
            ["Consider using more specific prompt keywords for better contextual validation"] := by
          have := congrArg ContextualValidationResult.recommendations heq
          simpa [validateContextualAppropriateness, hctx, neutralContextualResult] using this
        cases hc : (validateColorAppropriateness aiResponse context).recommendations with
        | nil =>
          rw [hc, List.nil_append] at hrecs
          have hmem : "Consider using more specific prompt keywords for better contextual validation" ∈
              (validateAnimationAppropriateness aiResponse context).recommendations := by
            rw [hrecs]; simp
          rcases animRecs_shape aiResponse context _ hmem with ⟨y, hy⟩ | ⟨y, hy⟩ | ⟨y, hy⟩
          · exact cadd_ne_neutral y hy.symm
          · exact use_ne_neutral y hy.symm
          · exact capp_ne_neutral y hy.symm
        | cons a as =>
          rw [hc, List.cons_append] at hrecs
          have ha : a =
              "Consider using more specific prompt keywords for better contextual validation" :=
            (List.cons.injEq _ _ _ _ ▸ hrecs).1
          have hmem : a ∈ (validateColorAppropriateness aiResponse context).recommendations := by
            rw [hc]; simp
          rcases colorRecs_shape aiResponse context _ hmem with ⟨y, hy⟩
          exact crec_ne_neutral y (hy ▸ ha)
      · intro h
        simp at h
    · intro ctx hsome
      have hceq : context = ctx := by simpa using hsome
      subst hceq
      refine ⟨?_, ?_⟩
      · simp only [validateContextualAppropriateness, hctx]
        ring
      · simp only [validateContextualAppropriateness, hctx]
        exact decide_eq_true_iff

/-- Witness for C6: a prompt with no recognizable keywords yields the neutral
result, and the ocean prompt yields the averaged score with the 0.6
threshold. -/
theorem spec2proof_c6_witness :
    validateContextualAppropriateness "xyzzy" respWaveAnimation = neutralContextualResult ∧
    ((validateContextualAppropriateness "ocean waves" respWaveAnimation).overallScore =
      1 / 2 * (validateContextualAppropriateness "ocean waves" respWaveAnimation).colorAppropriatenessScore +
      1 / 2 * (validateContextualAppropriateness "ocean waves" respWaveAnimation).animationAppropriatenessScore ∧
    ((validateContextualAppropriateness "ocean waves" respWaveAnimation).isAppropriate = true ↔
      (validateContextualAppropriateness "ocean waves" respWaveAnimation).overallScore ≥ 6 / 10)) :=
  ⟨(spec2proof_c6 "xyzzy" respWaveAnimation).1.mpr (by decide),
   (spec2proof_c6 "ocean waves" respWaveAnimation).2 contextOcean (by decide)⟩

/-- Iterated addThemeToSession over a list of accepted themes (the session
lifecycle a sequence of successful generations produces). -/
def runSessionInserts (themes : List GeneratedTheme) (s : SessionState) : SessionState :=
  themes.foldl (fun st t => addThemeToSession t st) s

/-- A minimal GeneratedTheme with the given id, used as concrete test input. -/
def mkSessionTheme (id : String) : GeneratedTheme :=
  { id := id
    name := "theme"
    studyColors :=
      { primary := "#111111", secondary := "#222222", accent := "#333333", gradient := [] }
    breakColors :=
      { primary := "#444444", secondary := "#555555", accent := "#666666", gradient := [] }
    backgroundElements := []
    animations := none
    originalPrompt := "prompt"
    createdAt := 0 }

/-- `Map.set` grows the map by at most one entry. -/
theorem mapSet_length_le (m : SessionState) (k : String) (v : ThemeColorSummary) :
    (mapSet m k v).length ≤ m.length + 1 := by
  unfold mapSet
  split
  · simp
  · simp

/-- `Map.set` with a non-empty key preserves non-emptiness of all keys. -/
theorem mapSet_keys_ne (m : SessionState) (k : String) (v : ThemeColorSummary)
    (hk : k ≠ "") (hm : ∀ p ∈ m, p.1 ≠ "") :
    ∀ p ∈ mapSet m k v, p.1 ≠ "" := by
  intro p hp
  unfold mapSet at hp
  split at hp
  · rcases List.mem_map.mp hp with ⟨q, hq, hpq⟩
    by_cases hq1 : q.1 = k
    · rw [if_pos hq1] at hpq
      rw [← hpq]
      exact hk
    · rw [if_neg hq1] at hpq
      rw [← hpq]
      exact hm q hq
  · rcases List.mem_append.mp hp with h | h
    · exact hm p h
    · simp at h
      rw [h]
      exact hk

/-- The eviction step caps the size at 10 whenever all keys are non-empty
and the input map has at most 11 entries. -/
theorem sessionEvict_bound (m : SessionState) (hlen : m.length ≤ 11)
    (hm : ∀ p ∈ m, p.1 ≠ "") : (sessionEvict m).length ≤ 10 := by
  unfold sessionEvict
  split
  · rename_i hgt
    cases m with
    | nil => simp at hgt
    | cons p0 rest =>
      simp only [List.head?_cons]
      have hne : p0.1 ≠ "" := hm p0 (by simp)
      rw [if_neg hne]
      rw [List.eraseP_cons_of_pos]
      · simp at hlen
        simpa using hlen
      · simp
  · rename_i hle
    omega

/-- The eviction step only keeps entries of the input map. -/
theorem sessionEvict_subset (m : SessionState) :
    ∀ p ∈ sessionEvict m, p ∈ m := by
  intro p hp
  unfold sessionEvict at hp
  split at hp
  · cases m with
    | nil => simp at hp
    | cons p0 rest =>
      simp only [List.head?_cons] at hp
      split at hp
      · exact hp
      · exact List.mem_of_mem_eraseP hp
  · exact hp

/-- One insertion with a non-empty id preserves the session invariant:
at most 10 entries, all keys non-empty. -/
theorem addTheme_inv (t : GeneratedTheme) (s : SessionState) (hid : t.id ≠ "")
    (hlen : s.length ≤ 10) (hkeys : ∀ p ∈ s, p.1 ≠ "") :
    (addThemeToSession t s).length ≤ 10 ∧ ∀ p ∈ addThemeToSession t s, p.1 ≠ "" := by
  unfold addThemeToSession
  have hm_keys := mapSet_keys_ne s t.id (createThemeColorSummaryFromGenerated t) hid hkeys
  have hm_len := mapSet_length_le s t.id (createThemeColorSummaryFromGenerated t)
  constructor
  · exact sessionEvict_bound _ (by omega) hm_keys
  · intro p hp
    exact hm_keys p (sessionEvict_subset _ p hp)

/-- The session invariant holds after any sequence of insertions with
non-empty ids. -/
theorem runInserts_inv (themes : List GeneratedTheme) :
    ∀ s : SessionState, (∀ t ∈ themes, t.id ≠ "") → s.length ≤ 10 →
    (∀ p ∈ s, p.1 ≠ "") →
    (runSessionInserts themes s).length ≤ 10 ∧
      ∀ p ∈ runSessionInserts themes s, p.1 ≠ "" := by
  induction themes with
  | nil =>
    intro s _ hlen hkeys
    exact ⟨hlen, hkeys⟩
  | cons t ts ih =>
    intro s hids hlen hkeys
    have hstep := addTheme_inv t s (hids t (by simp)) hlen hkeys
    have := ih (addThemeToSession t s) (fun u hu => hids u (by simp [hu]))
      hstep.1 hstep.2
    simpa [runSessionInserts, List.foldl_cons] using this

/-- FIFO eviction: inserting a fresh non-empty id into a full session whose
oldest key is non-empty drops exactly the oldest entry and appends the new
one at the end. -/
theorem addTheme_fifo (t : GeneratedTheme) (k0 : String) (v0 : ThemeColorSummary)
    (s' : SessionState) (hfresh : ∀ p ∈ (k0, v0) :: s', p.1 ≠ t.id)
    (hk0 : k0 ≠ "") (hlen : s'.length = 9) :
    addThemeToSession t ((k0, v0) :: s') =
      s' ++ [(t.id, createThemeColorSummaryFromGenerated t)] := by
  unfold addThemeToSession
  have hany : ((k0, v0) :: s').any (fun p => decide (p.1 = t.id)) = false := by
    rw [List.any_eq_false]
    intro p hp
    simpa using hfresh p hp
  have hset : mapSet ((k0, v0) :: s') t.id (createThemeColorSummaryFromGenerated t) =
      (k0, v0) :: (s' ++ [(t.id, createThemeColorSummaryFromGenerated t)]) := by
    unfold mapSet
    rw [if_neg]
    · simp
    · rw [hany]
      simp
  rw [hset]
  unfold sessionEvict
  rw [if_pos (by simp [hlen])]
  simp only [List.head?_cons]
  rw [if_neg hk0]
  rw [List.eraseP_cons_of_pos]
  simp

/-- C1 counterexample: addThemeToSession does NOT keep the session at 10
entries for every call sequence — the eviction is guarded by the JavaScript
truthiness test `if (firstKey)`, so when the oldest key is the empty string
the deletion is skipped: inserting a theme with id `""` followed by ten
themes with distinct non-empty ids leaves 11 entries. -/
theorem spec2proof_c1_counterexample :
    (runSessionInserts
      (["", "t1", "t2", "t3", "t4", "t5", "t6", "t7", "t8", "t9", "t10"].map
        mkSessionTheme) []).length = 11 := by
  decide

/-- C1 (amended): for call sequences in which every theme id is a non-empty
string, the session size is at most 10 after every insertion; when an
insertion of a fresh id would exceed the capacity, exactly the single oldest
entry is evicted (FIFO); and inserting twelve distinct themes t0..t11 leaves
exactly the entries t2..t11. -/
theorem spec2proof_c1 :
    (∀ themes : List GeneratedTheme, (∀ t ∈ themes, t.id ≠ "") →
      (runSessionInserts themes []).length ≤ 10) ∧
    (∀ (t : GeneratedTheme) (k0 : String) (v0 : ThemeColorSummary) (s' : SessionState),
      (∀ p ∈ (k0, v0) :: s', p.1 ≠ t.id) → k0 ≠ "" → s'.length = 9 →
      addThemeToSession t ((k0, v0) :: s') =
        s' ++ [(t.id, createThemeColorSummaryFromGenerated t)]) ∧
    runSessionInserts
      (["t0", "t1", "t2", "t3", "t4", "t5", "t6", "t7", "t8", "t9", "t10", "t11"].map
        mkSessionTheme) [] =
      ["t2", "t3", "t4", "t5", "t6", "t7", "t8", "t9", "t10", "t11"].map
        (fun i => (i, createThemeColorSummaryFromGenerated (mkSessionTheme i))) := by
  refine ⟨?_, ?_, by decide⟩
  · intro themes hids
    exact (runInserts_inv themes [] hids (by simp) (by simp)).1
  · intro t k0 v0 s' hfresh hk0 hlen
    exact addTheme_fifo t k0 v0 s' hfresh hk0 hlen

/-- Witness for C1 at concrete inputs: a three-insert sequence stays within
the bound, and a full session evicts its oldest entry. -/
theorem spec2proof_c1_witness :
    (runSessionInserts (["a", "b", "c"].map mkSessionTheme) []).length ≤ 10 ∧
    addThemeToSession (mkSessionTheme "k10")
        ((["k0", "k1", "k2", "k3", "k4", "k5", "k6", "k7", "k8", "k9"].map
          (fun i => (i, createThemeColorSummaryFromGenerated (mkSessionTheme i)))) : SessionState) =
      (["k1", "k2", "k3", "k4", "k5", "k6", "k7", "k8", "k9"].map
        (fun i => (i, createThemeColorSummaryFromGenerated (mkSessionTheme i)))) ++
        [("k10", createThemeColorSummaryFromGenerated (mkSessionTheme "k10"))] :=
  ⟨spec2proof_c1.1 (["a", "b", "c"].map mkSessionTheme) (by decide),
   spec2proof_c1.2.1 (mkSessionTheme "k10") "k0"
     (createThemeColorSummaryFromGenerated (mkSessionTheme "k0"))
     (["k1", "k2", "k3", "k4", "k5", "k6", "k7", "k8", "k9"].map
       (fun i => (i, createThemeColorSummaryFromGenerated (mkSessionTheme i))))
     (by decide) (by decide) (by decide)⟩

/-- When both colors parse, calculateRGBDistance is the Euclidean RGB
distance. -/
theorem calculateRGBDistance_some (c1 c2 : String) (r1 r2 : RGB)
    (h1 : hexToRgb c1 = some r1) (h2 : hexToRgb c2 = some r2) :
    calculateRGBDistance c1 c2 =
      Real.sqrt (((r1.r : ℝ) - r2.r) ^ 2 + ((r1.g : ℝ) - r2.g) ^ 2 +
        ((r1.b : ℝ) - r2.b) ^ 2) := by
  unfold calculateRGBDistance
  rw [h1, h2]

/-- When either color fails to parse, calculateRGBDistance returns 0. -/
theorem calculateRGBDistance_fail (c1 c2 : String)
    (h : hexToRgb c1 = none ∨ hexToRgb c2 = none) :
    calculateRGBDistance c1 c2 = 0 := by
  unfold calculateRGBDistance
  rcases h with h | h
  · rw [h]
  · rw [h]
    cases hexToRgb c1 <;> rfl

/-- C4: calculateRGBDistance is total and fails open — it returns 0 whenever
either string fails to parse as hex, returns the Euclidean RGB distance on
valid pairs, is 0 on every valid color paired with itself, and maps black
against white to a value within 0.1 of 441.67. -/
theorem spec2proof_c4 :
    (∀ c1 c2 : String, hexToRgb c1 = none ∨ hexToRgb c2 = none →
      calculateRGBDistance c1 c2 = 0) ∧
    (∀ (c1 c2 : String) (r1 r2 : RGB), hexToRgb c1 = some r1 → hexToRgb c2 = some r2 →
      calculateRGBDistance c1 c2 =
        Real.sqrt (((r1.r : ℝ) - r2.r) ^ 2 + ((r1.g : ℝ) - r2.g) ^ 2 +
          ((r1.b : ℝ) - r2.b) ^ 2)) ∧
    (∀ (c : String) (r : RGB), hexToRgb c = some r → calculateRGBDistance c c = 0) ∧
    |calculateRGBDistance "#000000" "#FFFFFF" - 441.67| ≤ 0.1 := by
  refine ⟨calculateRGBDistance_fail, calculateRGBDistance_some, ?_, ?_⟩
  · intro c r h
    rw [calculateRGBDistance_some c c r r h h]
    simp
  · rw [calculateRGBDistance_some "#000000" "#FFFFFF" ⟨0, 0, 0⟩ ⟨255, 255, 255⟩
      (by decide) (by decide)]
    have hsum : (((0 : ℕ) : ℝ) - ((255 : ℕ) : ℝ)) ^ 2 +
        (((0 : ℕ) : ℝ) - ((255 : ℕ) : ℝ)) ^ 2 +
        (((0 : ℕ) : ℝ) - ((255 : ℕ) : ℝ)) ^ 2 = 195075 := by
      norm_num
    dsimp only
    rw [hsum]
    have hs := Real.sq_sqrt (by norm_num : (195075 : ℝ) ≥ 0)
    have hpos := Real.sqrt_nonneg (195075 : ℝ)
    rw [abs_le]
    constructor
    · nlinarith [hs, hpos]
    · nlinarith [hs, hpos]

/-- Witness for C4 at concrete colors: an unparseable left argument yields 0,
a valid color against itself yields 0, and a valid pair yields the Euclidean
distance. -/
theorem spec2proof_c4_witness :
    calculateRGBDistance "not-a-color" "#000000" = 0 ∧
    calculateRGBDistance "#0077BE" "#0077BE" = 0 ∧
    calculateRGBDistance "#000000" "#FFFFFF" =
      Real.sqrt ((((0 : ℕ) : ℝ) - ((255 : ℕ) : ℝ)) ^ 2 +
        (((0 : ℕ) : ℝ) - ((255 : ℕ) : ℝ)) ^ 2 +
        (((0 : ℕ) : ℝ) - ((255 : ℕ) : ℝ)) ^ 2) :=
  ⟨spec2proof_c4.1 "not-a-color" "#000000" (Or.inl (by decide)),
   spec2proof_c4.2.2.1 "#0077BE" ⟨0, 119, 190⟩ (by decide),
   spec2proof_c4.2.1 "#000000" "#FFFFFF" ⟨0, 0, 0⟩ ⟨255, 255, 255⟩ (by decide) (by decide)⟩

/-- The specification's six-value average RGB distance between two theme
summaries (§4.4). -/
noncomputable def spec_avgDistance6 (a b : ThemeColorSummary) : ℝ :=
  (calculateRGBDistance a.studyPrimary b.studyPrimary +
   calculateRGBDistance a.studySecondary b.studySecondary +
   calculateRGBDistance a.studyAccent b.studyAccent +
   calculateRGBDistance a.breakPrimary b.breakPrimary +
   calculateRGBDistance a.breakSecondary b.breakSecondary +
   calculateRGBDistance a.breakAccent b.breakAccent) / 6

/-- The specification's similarity score `1 − avgDistance/441.67`. -/
noncomputable def spec_similarityScore (a b : ThemeColorSummary) : ℝ :=
  1 - spec_avgDistance6 a b / 441.67

/-- The specification's weighted fallback distance of a candidate: per phase
`0.5·primary + 0.3·secondary + 0.2·accent` against the fixed fallback
palette, averaged over the two phases (§4.4). -/
noncomputable def spec_fallbackDistance (r : AIThemeResponse) : ℝ :=
  ((0.5 * calculateRGBDistance r.studyColors.primary "#6B73FF" +
    0.3 * calculateRGBDistance r.studyColors.secondary "#F0F2FF" +
    0.2 * calculateRGBDistance r.studyColors.accent "#4C51BF") +
   (0.5 * calculateRGBDistance r.breakColors.primary "#48BB78" +
    0.3 * calculateRGBDistance r.breakColors.secondary "#F0FFF4" +
    0.2 * calculateRGBDistance r.breakColors.accent "#38A169")) / 2

/-- A valid color has distance 0 to itself. -/
theorem calculateRGBDistance_self (c : String) (r : RGB) (h : hexToRgb c = some r) :
    calculateRGBDistance c c = 0 := by
  rw [calculateRGBDistance_some c c r r h h]
  simp

/-- The validator's overall fallback distance coincides with the
specification's weighted fallback distance. -/
theorem overallDistance_eq_spec (r : AIThemeResponse) :
    (calculateThemeColorDistance (responseStudyColors r)
        (fallbackStudyColors DEFAULT_DIVERSITY_CONFIG) +
      calculateThemeColorDistance (responseBreakColors r)
        (fallbackBreakColors DEFAULT_DIVERSITY_CONFIG)) / 2 =
    spec_fallbackDistance r := by
  unfold calculateThemeColorDistance responseStudyColors responseBreakColors
    fallbackStudyColors fallbackBreakColors spec_fallbackDistance
    DEFAULT_DIVERSITY_CONFIG DEFAULT_FALLBACK_COLORS
  dsimp only
  ring

open Classical in
/-- Membership in the conflict accumulator of the session-uniqueness loop. -/
theorem conflicts_mem (cfg : DiversityConfig) (newS : ThemeColorSummary)
    (l : SessionState) :
    ∀ (c0 : List String) (m0 : ℝ) (x : String),
    (x ∈ (l.foldl (fun (acc : List String × ℝ) p =>
      (if calculateThemeSimilarity newS p.2 > cfg.maxSimilarityScore then
        acc.1 ++ [p.1] else acc.1,
       max acc.2 (calculateThemeSimilarity newS p.2))) (c0, m0)).1) ↔
    (x ∈ c0 ∨ ∃ p ∈ l, p.1 = x ∧
      calculateThemeSimilarity newS p.2 > cfg.maxSimilarityScore) := by
  induction l with
  | nil =>
    intro c0 m0 x
    simp
  | cons p ps ih =>
    intro c0 m0 x
    simp only [List.foldl_cons]
    by_cases hc : calculateThemeSimilarity newS p.2 > cfg.maxSimilarityScore
    · rw [if_pos hc, ih]
      constructor
      · rintro (h | h)
        · rcases List.mem_append.mp h with h | h
          · exact Or.inl h
          · exact Or.inr ⟨p, List.mem_cons_self p ps, (List.mem_singleton.mp h).symm, hc⟩
        · rcases h with ⟨q, hq, hqx, hqs⟩
          exact Or.inr ⟨q, List.mem_cons_of_mem p hq, hqx, hqs⟩
      · rintro (h | ⟨q, hq, hqx, hqs⟩)
        · exact Or.inl (List.mem_append.mpr (Or.inl h))
        · rcases List.mem_cons.mp hq with hq | hq
          · subst hq
            exact Or.inl (List.mem_append.mpr (Or.inr (List.mem_singleton.mpr hqx.symm)))
          · exact Or.inr ⟨q, hq, hqx, hqs⟩
    · rw [if_neg hc, ih]
      constructor
      · rintro (h | ⟨q, hq, hqx, hqs⟩)
        · exact Or.inl h
        · exact Or.inr ⟨q, List.mem_cons_of_mem p hq, hqx, hqs⟩
      · rintro (h | ⟨q, hq, hqx, hqs⟩)
        · exact Or.inl h
        · rcases List.mem_cons.mp hq with hq | hq
          · subst hq
            exact absurd hqs hc
          · exact Or.inr ⟨q, hq, hqx, hqs⟩

/-- C2: validateSessionUniqueness computes, for each stored entry, the
six-value average RGB distance and the similarity score 1 − avg/441.67; the
conflicting-ids list holds exactly the entries whose similarity exceeds the
default maximum 0.7; and isUnique holds exactly when that list is empty and
the candidate's weighted fallback distance is at least the default minimum
50. -/
theorem spec2proof_c2 (aiResponse : AIThemeResponse) (session : SessionState) :
    (∀ a b : ThemeColorSummary, calculateThemeSimilarity a b = spec_similarityScore a b) ∧
    (∀ p ∈ session,
      spec_similarityScore (createThemeColorSummary aiResponse) p.2 > 0.7 →
      p.1 ∈ (validateSessionUniqueness DEFAULT_DIVERSITY_CONFIG session
        aiResponse).conflictingThemes) ∧
    (∀ id ∈ (validateSessionUniqueness DEFAULT_DIVERSITY_CONFIG session
        aiResponse).conflictingThemes,
      ∃ s, (id, s) ∈ session ∧
        spec_similarityScore (createThemeColorSummary aiResponse) s > 0.7) ∧
    ((validateSessionUniqueness DEFAULT_DIVERSITY_CONFIG session aiResponse).isUnique ↔
      (validateSessionUniqueness DEFAULT_DIVERSITY_CONFIG session
        aiResponse).conflictingThemes = [] ∧
      spec_fallbackDistance aiResponse ≥ 50) := by
  have hsim : ∀ a b : ThemeColorSummary,
      calculateThemeSimilarity a b = spec_similarityScore a b := by
    intro a b
    unfold calculateThemeSimilarity spec_similarityScore spec_avgDistance6
    rfl
  have hmax : DEFAULT_DIVERSITY_CONFIG.maxSimilarityScore = (0.7 : ℝ) := rfl
  have hconf : (validateSessionUniqueness DEFAULT_DIVERSITY_CONFIG session
      aiResponse).conflictingThemes =
      (session.foldl (fun (acc : List String × ℝ) p =>
        (if calculateThemeSimilarity (createThemeColorSummary aiResponse) p.2 >
            DEFAULT_DIVERSITY_CONFIG.maxSimilarityScore then
          acc.1 ++ [p.1] else acc.1,
         max acc.2 (calculateThemeSimilarity (createThemeColorSummary aiResponse) p.2)))
        ([], 0)).1 := rfl
  refine ⟨hsim, ?_, ?_, ?_⟩
  · intro p hp hgt
    rw [hconf, conflicts_mem]
    refine Or.inr ⟨p, hp, rfl, ?_⟩
    rw [hsim, hmax]
    exact hgt
  · intro id hid
    rw [hconf, conflicts_mem] at hid
    rcases hid with h | ⟨q, hq, hqx, hqs⟩
    · simp at h
    · rw [hmax, hsim] at hqs
      refine ⟨q.2, ?_, hqs⟩
      rw [← hqx]
      exact hq
  · have hiso : (validateSessionUniqueness DEFAULT_DIVERSITY_CONFIG session
        aiResponse).isUnique ↔
        ((validateSessionUniqueness DEFAULT_DIVERSITY_CONFIG session
          aiResponse).conflictingThemes = [] ∧
         (calculateThemeColorDistance (responseStudyColors aiResponse)
            (fallbackStudyColors DEFAULT_DIVERSITY_CONFIG) +
          calculateThemeColorDistance (responseBreakColors aiResponse)
            (fallbackBreakColors DEFAULT_DIVERSITY_CONFIG)) / 2 ≥
          DEFAULT_DIVERSITY_CONFIG.minColorDistance) := Iff.rfl
    rw [hiso, overallDistance_eq_spec]
    have hmin : DEFAULT_DIVERSITY_CONFIG.minColorDistance = (50 : ℝ) := rfl
    rw [hmin]

/-- Witness for C2: a stored entry with colors identical to the candidate has
similarity 1 > 0.7 and therefore appears in the conflicting-ids list. -/
theorem spec2proof_c2_witness :
    "t1" ∈ (validateSessionUniqueness DEFAULT_DIVERSITY_CONFIG
      [("t1", createThemeColorSummary respNoAnimations)]
      respNoAnimations).conflictingThemes :=
  (spec2proof_c2 respNoAnimations
      [("t1", createThemeColorSummary respNoAnimations)]).2.1
    ("t1", createThemeColorSummary respNoAnimations) (by simp)
    (by
      show spec_similarityScore (createThemeColorSummary respNoAnimations)
        (createThemeColorSummary respNoAnimations) > 0.7
      unfold spec_similarityScore spec_avgDistance6
      simp only [createThemeColorSummary, respNoAnimations, witnessColors]
      rw [calculateRGBDistance_self "#0077BE" ⟨0, 119, 190⟩ (by decide),
        calculateRGBDistance_self "#87CEEB" ⟨135, 206, 235⟩ (by decide),
        calculateRGBDistance_self "#20B2AA" ⟨32, 178, 170⟩ (by decide)]
      norm_num)

/-- A field that passes checkColorField matches the hex pattern. -/
theorem checkColorField_ok (value fieldName context : String) (u : Unit)
    (h : checkColorField value fieldName context = .ok u) :
    isValidHexColor value = true := by
  unfold checkColorField at h
  split at h
  · exact absurd h (by simp)
  · split at h
    · exact absurd h (by simp)
    · rename_i hnot
      simpa using hnot

/-- A color object that passes validateColorObject has three hex-valid
fields. -/
theorem validateColorObject_ok (colors : AIColorSpec) (context : String) (u : Unit)
    (h : validateColorObject colors context = .ok u) :
    isValidHexColor colors.primary = true ∧ isValidHexColor colors.secondary = true ∧
      isValidHexColor colors.accent = true := by
  unfold validateColorObject at h
  split at h
  · exact absurd h (by simp)
  · rename_i u1 heq1
    split at h
    · exact absurd h (by simp)
    · rename_i u2 heq2
      exact ⟨checkColorField_ok _ _ _ _ heq1, checkColorField_ok _ _ _ _ heq2,
        checkColorField_ok _ _ _ _ h⟩

/-- A response that passes validateAIResponse has six hex-valid color
fields. -/
theorem validateAIResponse_ok (response : AIThemeResponse) (u : Unit)
    (h : validateAIResponse response = .ok u) :
    isValidHexColor response.studyColors.primary = true ∧
    isValidHexColor response.studyColors.secondary = true ∧
    isValidHexColor response.studyColors.accent = true ∧
    isValidHexColor response.breakColors.primary = true ∧
    isValidHexColor response.breakColors.secondary = true ∧
    isValidHexColor response.breakColors.accent = true := by
  unfold validateAIResponse at h
  split at h
  · exact absurd h (by simp)
  · rename_i u1 heq1
    have h1 := validateColorObject_ok _ _ _ heq1
    have h2 := validateColorObject_ok _ _ _ h
    exact ⟨h1.1, h1.2.1, h1.2.2, h2.1, h2.2.1, h2.2.2⟩

/-- C10 (amended): every color field of every GeneratedTheme produced by
ThemeProcessor.processAIResponse matches the processor's hex pattern, which
accepts 6-digit or 3-digit hex strings. -/
theorem spec2proof_c10 (aiResponse : AIThemeResponse) (originalPrompt : String)
    (session : SessionState) (now : ℕ) (theme : GeneratedTheme) (session2 : SessionState)
    (h : processAIResponse aiResponse originalPrompt session now =
      .ok (theme, session2)) :
    isValidHexColor theme.studyColors.primary = true ∧
    isValidHexColor theme.studyColors.secondary = true ∧
    isValidHexColor theme.studyColors.accent = true ∧
    isValidHexColor theme.breakColors.primary = true ∧
    isValidHexColor theme.breakColors.secondary = true ∧
    isValidHexColor theme.breakColors.accent = true := by
  unfold processAIResponse at h
  split at h
  · exact absurd h (by simp)
  · rename_i u1 heq1
    have hvalid := validateAIResponse_ok _ _ heq1
    split at h <;>
    · dsimp only at h
      split at h
      · split at h
        · exact absurd h (by simp)
        · split at h
          · exact absurd h (by simp)
          · rw [Except.ok.injEq, Prod.mk.injEq] at h
            obtain ⟨h1, h2⟩ := h
            subst h1
            simpa [convertToThemeColors] using hvalid
      · exact absurd h (by simp)

/-- Evaluation helper: a distance whose squared sum is a perfect square. -/
theorem calcdist_eq (c1 c2 : String) (r1 r2 : RGB) (v : ℝ)
    (h1 : hexToRgb c1 = some r1) (h2 : hexToRgb c2 = some r2)
    (hv : ((r1.r : ℝ) - r2.r) ^ 2 + ((r1.g : ℝ) - r2.g) ^ 2 +
      ((r1.b : ℝ) - r2.b) ^ 2 = v ^ 2)
    (hvnn : 0 ≤ v) : calculateRGBDistance c1 c2 = v := by
  rw [calculateRGBDistance_some c1 c2 r1 r2 h1 h2, hv, Real.sqrt_sq hvnn]

/-- Concrete candidate whose study primary is the 3-digit shorthand `#ABC`:
the remaining five colors differ from the fallback palette in exactly one
channel each, so every distance is integral. -/
def c10resp : AIThemeResponse :=
  { studyColors :=
      { primary := "#ABC", secondary := "#00F2FF", accent := "#FF51BF", description := "" }
    breakColors :=
      { primary := "#FFBB78", secondary := "#00FFF4", accent := "#FFA169", description := "" }
    visualElements :=
      { backgroundType := .gradient, elements := ["#FFBB78", "#00FFF4"], animations := none }
    themeName := "Mismatch"
    confidence := 9 / 10 }

/-- Overall fallback distance of the c10 candidate: 155.55. -/
theorem c10resp_overall :
    (calculateThemeColorDistance (responseStudyColors c10resp)
        (fallbackStudyColors DEFAULT_DIVERSITY_CONFIG) +
      calculateThemeColorDistance (responseBreakColors c10resp)
        (fallbackBreakColors DEFAULT_DIVERSITY_CONFIG)) / 2 = 155.55 := by
  have d1 : calculateRGBDistance "#ABC" "#6B73FF" = 0 :=
    calculateRGBDistance_fail _ _ (Or.inl (by decide))
  have d2 : calculateRGBDistance "#00F2FF" "#F0F2FF" = 240 :=
    calcdist_eq _ _ ⟨0, 242, 255⟩ ⟨240, 242, 255⟩ 240 (by decide) (by decide)
      (by dsimp only; norm_num) (by norm_num)
  have d3 : calculateRGBDistance "#FF51BF" "#4C51BF" = 179 :=
    calcdist_eq _ _ ⟨255, 81, 191⟩ ⟨76, 81, 191⟩ 179 (by decide) (by decide)
      (by dsimp only; norm_num) (by norm_num)
  have d4 : calculateRGBDistance "#FFBB78" "#48BB78" = 183 :=
    calcdist_eq _ _ ⟨255, 187, 120⟩ ⟨72, 187, 120⟩ 183 (by decide) (by decide)
      (by dsimp only; norm_num) (by norm_num)
  have d5 : calculateRGBDistance "#00FFF4" "#F0FFF4" = 240 :=
    calcdist_eq _ _ ⟨0, 255, 244⟩ ⟨240, 255, 244⟩ 240 (by decide) (by decide)
      (by dsimp only; norm_num) (by norm_num)
  have d6 : calculateRGBDistance "#FFA169" "#38A169" = 199 :=
    calcdist_eq _ _ ⟨255, 161, 105⟩ ⟨56, 161, 105⟩ 199 (by decide) (by decide)
      (by dsimp only; norm_num) (by norm_num)
  unfold calculateThemeColorDistance responseStudyColors responseBreakColors
    fallbackStudyColors fallbackBreakColors DEFAULT_DIVERSITY_CONFIG
    DEFAULT_FALLBACK_COLORS c10resp
  dsimp only
  rw [d1, d2, d3, d4, d5, d6]
  norm_num

/-- The c10 candidate passes the session-uniqueness gate on an empty
session. -/
theorem c10_isUnique :
    (validateSessionUniqueness DEFAULT_DIVERSITY_CONFIG [] c10resp).isUnique := by
  refine ⟨rfl, ?_⟩
  show (calculateThemeColorDistance (responseStudyColors c10resp)
      (fallbackStudyColors DEFAULT_DIVERSITY_CONFIG) +
    calculateThemeColorDistance (responseBreakColors c10resp)
      (fallbackBreakColors DEFAULT_DIVERSITY_CONFIG)) / 2 ≥
    DEFAULT_DIVERSITY_CONFIG.minColorDistance
  rw [c10resp_overall]
  have hmin : DEFAULT_DIVERSITY_CONFIG.minColorDistance = (50 : ℝ) := rfl
  rw [hmin]
  norm_num

/-- The c10 candidate passes the fallback-similarity gate. -/
theorem c10_notSimilar :
    ¬ (validateAgainstFallback DEFAULT_DIVERSITY_CONFIG c10resp).isSimilar := by
  show ¬ ((calculateThemeColorDistance (responseStudyColors c10resp)
      (fallbackStudyColors DEFAULT_DIVERSITY_CONFIG) +
    calculateThemeColorDistance (responseBreakColors c10resp)
      (fallbackBreakColors DEFAULT_DIVERSITY_CONFIG)) / 2 <
    DEFAULT_DIVERSITY_CONFIG.minColorDistance)
  rw [c10resp_overall]
  have hmin : DEFAULT_DIVERSITY_CONFIG.minColorDistance = (50 : ℝ) := rfl
  rw [hmin]
  norm_num

/-- The theme processAIResponse builds for the c10 candidate on an empty
session at time 0. -/
noncomputable def c10theme : GeneratedTheme :=
  { id := generateThemeId "ocean waves" 0
    name := "Mismatch"
    studyColors := convertToThemeColors c10resp.studyColors
    breakColors := convertToThemeColors c10resp.breakColors
    backgroundElements := processBackgroundElements c10resp.visualElements
    animations := some (processAnimations c10resp.visualElements.animations)
    originalPrompt := "ocean waves"
    createdAt := 0
    isCustom := true
    aiConfidence := some c10resp.confidence
    diversityValidation := some (validateSessionUniqueness DEFAULT_DIVERSITY_CONFIG [] c10resp) }

set_option maxRecDepth 8192 in
/-- processAIResponse accepts the c10 candidate and returns the theme above. -/
theorem evalC10 : processAIResponse c10resp "ocean waves" [] 0 =
    .ok (c10theme, addThemeToSession c10theme []) := by
  have hv : validateAIResponse c10resp = Except.ok () := rfl
  unfold processAIResponse
  rw [hv]
  dsimp only
  rw [if_pos c10_isUnique, if_neg c10_notSimilar]
  rfl

/-- C10 counterexample: processAIResponse accepts a candidate whose study
primary is `#ABC` (the hex pattern allows 3-digit shorthand) and copies it
verbatim into the produced theme, so an accepted theme's color field need not
be a 6-digit hex string. -/
theorem spec2proof_c10_counterexample :
    (processAIResponse c10resp "ocean waves" [] 0).toOption.map
      (fun p => isValid6DigitHex p.1.studyColors.primary) = some false := by
  rw [evalC10]
  rfl

/-- Witness for C10 at the concrete accepted theme. -/
theorem spec2proof_c10_witness :
    isValidHexColor c10theme.studyColors.primary = true ∧
    isValidHexColor c10theme.studyColors.secondary = true ∧
    isValidHexColor c10theme.studyColors.accent = true ∧
    isValidHexColor c10theme.breakColors.primary = true ∧
    isValidHexColor c10theme.breakColors.secondary = true ∧
    isValidHexColor c10theme.breakColors.accent = true :=
  spec2proof_c10 c10resp "ocean waves" [] 0 c10theme
    (addThemeToSession c10theme []) evalC10

/-- The reason string the generator's own diversity check produces for a
fallback-similar candidate (ai-theme-generator.ts:383) at a printed distance
of 0.00. -/
def diversityRejectReason : String :=
  "Theme too similar to fallback (distance: 0.00)"

/-- The suggestions attached to that rejection (ai-theme-generator.ts:384). -/
def diversityRejectSuggestions : List String :=
  ["Try a more specific or creative prompt", "Use different color keywords"]

/-- An engine/validator oracle whose every attempt is a diversity rejection. -/
def alwaysDiversityOutcome : ℕ → AttemptOutcome :=
  fun _ => .diversityReject diversityRejectReason diversityRejectSuggestions

/-- C3: the retryAttempts clamp is only a destructuring default — a caller
passing retryAttempts = 5 bypasses `Math.min(config.retryAttempts, 2)`
entirely, and against an always-retryably-failing engine the loop makes 5
attempts, not at most 2.  (Clamping does apply when the caller omits the
option.) -/
theorem spec2proof_c3 :
    resolveRetryAttempts (some 5) 3 = 5 ∧
    resolveRetryAttempts none 3 = 2 ∧
    (genLoop alwaysDiversityOutcome (resolveRetryAttempts (some 5) 3)).attemptsMade = 5 := by
  refine ⟨rfl, rfl, ?_⟩
  decide

/-- The full message thrown for a diversity rejection
(ai-theme-generator.ts:141): note it contains no lowercase `diversity`. -/
def c8DiversityMessage : String :=
  "Diversity validation failed: Theme too similar to fallback (distance: 0.00). Try a more specific or creative prompt Use different color keywords"

/-- A message thrown for a contextual-appropriateness rejection
(ai-theme-generator.ts:150): it too contains no lowercase `diversity`. -/
def c8ContextualMessage : String :=
  "Theme not contextually appropriate: Study colors do not match expected color families for this prompt Consider using colors from: Blues"

/-- C8: the retry wait is decided by the case-sensitive test
`message.includes('diversity')`, but the messages produced for diversity and
contextual rejections contain no lowercase `diversity` (the diversity message
starts with capital-D `Diversity`), so both rejections wait
2^(attempt−1)·1000 ms — 1000 ms before the first retry — not the 500 ms the
specification states. -/
theorem spec2proof_c8 :
    attemptThrown (.diversityReject diversityRejectReason diversityRejectSuggestions) =
      some (c8DiversityMessage, true) ∧
    attemptThrown (.contextualReject
      ["Study colors do not match expected color families for this prompt"]
      ["Consider using colors from: Blues"]) = some (c8ContextualMessage, false) ∧
    jsIncludes c8DiversityMessage "diversity" = false ∧
    jsIncludes c8ContextualMessage "diversity" = false ∧
    delayForRetry c8DiversityMessage 1 = 1000 ∧
    delayForRetry c8ContextualMessage 1 = 1000 ∧
    (genLoop alwaysDiversityOutcome 2).delays = [1000] := by
  refine ⟨by decide, by decide, by decide, by decide, by decide, by decide, by decide⟩

/-- An exhausted loop never carries a finished theme. -/
theorem genLoopAux_no_success (outcome : ℕ → AttemptOutcome)
    (h : ∀ n t, outcome n ≠ AttemptOutcome.success t) (retryAttempts : ℕ) :
    ∀ (fuel attempt made : ℕ) (lastError : Option String) (df : ℕ) (ds : List ℕ),
    (genLoopAux outcome retryAttempts fuel attempt made lastError df ds).finished =
      none := by
  intro fuel
  induction fuel with
  | zero =>
    intro attempt made lastError df ds
    rfl
  | succ f ih =>
    intro attempt made lastError df ds
    cases ho : outcome attempt
    case success t => exact absurd ho (h attempt t)
    all_goals
      simp only [genLoopAux, ho, attemptThrown]
    all_goals
      split
    all_goals
      first
        | rfl
        | apply ih

/-- The exhausted loop of generateTheme leaves no theme. -/
theorem genLoop_no_success (outcome : ℕ → AttemptOutcome)
    (h : ∀ n t, outcome n ≠ AttemptOutcome.success t) (retryAttempts : ℕ) :
    (genLoop outcome retryAttempts).finished = none :=
  genLoopAux_no_success outcome h retryAttempts retryAttempts 1 0 none 0 []

/-- C9: when every attempt fails validation, generateTheme with
fallbackOnError (the default) resolves successfully with usedFallback set,
an explanatory error string around the exhaustion message, and the
deterministic fallback theme (study #6B73FF/#F0F2FF/#4C51BF, break
#48BB78/#F0FFF4/#38A169, confidence 0.5, diversityValidation.isUnique
false), registering that theme into the session history; with
fallbackOnError disabled it resolves as a failure carrying the exhaustion
message, which is the last error message followed by the count of
diversity-specific failures. -/
theorem spec2proof_c9 (options : ThemeGenerationOptions) (configRetryAttempts : ℕ)
    (outcome : ℕ → AttemptOutcome) (prompt : String) (session : SessionState) (now : ℕ)
    (hfail : ∀ n t, outcome n ≠ AttemptOutcome.success t) :
    ((options.fallbackOnError.getD true = true →
      (generateThemeCore options configRetryAttempts outcome prompt session now).1.success
          = true ∧
      (generateThemeCore options configRetryAttempts outcome prompt session
        now).1.usedFallback = true ∧
      (generateThemeCore options configRetryAttempts outcome prompt session now).1.theme =
        some (fallbackThemeFor prompt now) ∧
      (generateThemeCore options configRetryAttempts outcome prompt session now).1.error =
        some ("AI generation failed: " ++
          exhaustionMessage (genLoop outcome
            (resolveRetryAttempts options.retryAttempts configRetryAttempts)) ++
          ". Using fallback theme.") ∧
      (generateThemeCore options configRetryAttempts outcome prompt session now).2 =
        addThemeToSession (fallbackThemeFor prompt now) session ∧
      (fallbackThemeFor prompt now).studyColors.primary = "#6B73FF" ∧
      (fallbackThemeFor prompt now).studyColors.secondary = "#F0F2FF" ∧
      (fallbackThemeFor prompt now).studyColors.accent = "#4C51BF" ∧
      (fallbackThemeFor prompt now).breakColors.primary = "#48BB78" ∧
      (fallbackThemeFor prompt now).breakColors.secondary = "#F0FFF4" ∧
      (fallbackThemeFor prompt now).breakColors.accent = "#38A169" ∧
      (fallbackThemeFor prompt now).aiConfidence = some (5 / 10) ∧
      ∃ dv, (fallbackThemeFor prompt now).diversityValidation = some dv ∧ ¬ dv.isUnique) ∧
    (options.fallbackOnError.getD true = false →
      (generateThemeCore options configRetryAttempts outcome prompt session now).1.success
          = false ∧
      (generateThemeCore options configRetryAttempts outcome prompt session now).1.theme =
        none ∧
      (generateThemeCore options configRetryAttempts outcome prompt session
        now).1.usedFallback = false ∧
      (generateThemeCore options configRetryAttempts outcome prompt session now).1.error =
        some (exhaustionMessage (genLoop outcome
          (resolveRetryAttempts options.retryAttempts configRetryAttempts))) ∧
      (generateThemeCore options configRetryAttempts outcome prompt session now).2 =
        session)) ∧
    (∀ lr : LoopResult, exhaustionMessage lr =
      lr.lastError.getD "Theme generation failed after all retry attempts" ++
      (if lr.diversityFailures > 0 then
        " (" ++ toString lr.diversityFailures ++ " diversity validation failures)"
       else "")) := by
  have hfin := genLoop_no_success outcome hfail
    (resolveRetryAttempts options.retryAttempts configRetryAttempts)
  refine ⟨⟨?_, ?_⟩, fun lr => rfl⟩
  · intro hfb
    unfold generateThemeCore finishGenerate
    dsimp only
    rw [hfin, hfb]
    dsimp only [applyFallbackTheme]
    refine ⟨rfl, rfl, rfl, rfl, rfl, rfl, rfl, rfl, rfl, rfl, rfl, rfl, ?_⟩
    exact ⟨_, rfl, fun hF => hF⟩
  · intro hfb
    unfold generateThemeCore finishGenerate
    dsimp only
    rw [hfin, hfb]
    exact ⟨rfl, rfl, rfl, rfl, rfl⟩

/-- An oracle whose every attempt is a retryable engine failure. -/
def alwaysNetworkError : ℕ → AttemptOutcome :=
  fun _ => .engineThrow "Network error - please check your internet connection"

/-- Witness for C9 at a concrete run: default options take the fallback path
with success and usedFallback, and fallbackOnError = false yields a failure. -/
theorem spec2proof_c9_witness :
    ((generateThemeCore {} 3 alwaysNetworkError "ocean" [] 0).1.success = true ∧
     (generateThemeCore {} 3 alwaysNetworkError "ocean" [] 0).1.usedFallback = true ∧
     (generateThemeCore {} 3 alwaysNetworkError "ocean" [] 0).2 =
       addThemeToSession (fallbackThemeFor "ocean" 0) []) ∧
    (generateThemeCore { fallbackOnError := some false } 3 alwaysNetworkError
      "ocean" [] 0).1.success = false := by
  have hfail : ∀ n t, alwaysNetworkError n ≠ AttemptOutcome.success t := by
    intro n t h
    exact AttemptOutcome.noConfusion h
  have h1 := (spec2proof_c9 {} 3 alwaysNetworkError "ocean" [] 0 hfail).1.1 rfl
  have h2 := (spec2proof_c9 { fallbackOnError := some false } 3 alwaysNetworkError
    "ocean" [] 0 hfail).1.2 rfl
  exact ⟨⟨h1.1, h1.2.1, h1.2.2.2.2.1⟩, h2.1⟩
